import Mathlib

/-! cf4ocl: the OpenCL context wrapper

A shallow embedding of `src/lib/context.c` (`cl4_context_new`,
`cl4_context_destroy`) and of the error macros of `src/lib/common.h`.

* Native handles (`cl_device_id`, `cl_platform_id`, `cl_context`) are natural
  numbers, `0` being `NULL`.
* A `GError **` argument is an `ErrPtr`: `none` is a `NULL` pointer,
  `some none` an unset slot, `some (some e)` a slot holding `e`.
* The process state is a `World`: the two wrapper registries (handle and
  wrapper reference count) and the ordered trace of the calls made.
* Undefined behaviour of the C code (dereferencing `NULL`, reading past the
  end of an array, a failed `g_assert`) is a `Fault`.
-/

namespace Cf4ocl

/-! ## Native types and constants -/

abbrev cl_int := Int
abbrev cl_uint := Nat
abbrev cl_device_id := Nat
abbrev cl_platform_id := Nat
abbrev cl_context := Nat
abbrev GQuark := Nat

/-- The native success status. -/
def CL_SUCCESS : cl_int := 0

/-- Context property name `CL_CONTEXT_PLATFORM` of the OpenCL headers. -/
def CL_CONTEXT_PLATFORM : Int := 0x1084

/-- Device information name `CL_DEVICE_PLATFORM` of the OpenCL headers. -/
def CL_DEVICE_PLATFORM : Nat := 0x1031

/-! ## GLib errors -/

/-- GLib error value: domain quark, code and message. -/
structure GError where
  domain : GQuark
  code : Int
  message : String
  deriving DecidableEq

/-- A `GError **`: `none` is `NULL`, `some slot` points to a `GError *` slot. -/
abbrev ErrPtr := Option (Option GError)

/-- GLib `g_set_error`: does nothing through a `NULL` pointer, fills an unset
slot, and leaves a slot that is already set as it is (GLib only warns). -/
def g_set_error (err : ErrPtr) (domain : GQuark) (code : Int) (message : String) : ErrPtr :=
  match err with
  | none => none
  | some none => some (some ⟨domain, code, message⟩)
  | some (some old) => some (some old)

/-- GLib `g_propagate_error`: drops `src` when `dest` is `NULL`, moves it into
an unset slot, and leaves a slot that is already set as it is. -/
def g_propagate_error (dest : ErrPtr) (src : GError) : ErrPtr :=
  match dest with
  | none => none
  | some none => some (some src)
  | some (some old) => some (some old)

/-- Macro `ccl_if_err_create_goto` of `common.h` (used in `context.c` under
its earlier name `gef_if_error_create_goto`): when `error_condition` holds,
`g_set_error(&(err), quark, error_code, msg)` and `goto label`. The first
component is the error location afterwards, the second tells whether the jump
to the label is taken. -/
def ccl_if_err_create_goto (err : ErrPtr) (quark : GQuark) (error_condition : Bool)
    (error_code : Int) (msg : String) : ErrPtr × Bool :=
  if error_condition then (g_set_error err quark error_code msg, true) else (err, false)

/-- Macro `ccl_if_err_goto` of `common.h`: jump when `err != NULL`. -/
def ccl_if_err_goto (err : Option GError) : Bool :=
  err.isSome

/-- Macro `ccl_if_err_propagate_goto` of `common.h` (used in `context.c` under
its earlier name `gef_if_err_propagate_goto`): when `err_src != NULL`,
`g_propagate_error(err_dest, err_src)` and `goto label`. -/
def ccl_if_err_propagate_goto (err_dest : ErrPtr) (err_src : Option GError) : ErrPtr × Bool :=
  match err_src with
  | some e => (g_propagate_error err_dest e, true)
  | none => (err_dest, false)

/-! ## Wrapper registry -/

/-- Registry of live wrappers: native handle and wrapper reference count. -/
abbrev Registry := List (Nat × Nat)

/-- Wrapper reference count of the wrapper of handle `h` (`0`: no live wrapper). -/
def refCount : Registry → Nat → Nat
  | [], _ => 0
  | (k, n) :: rest, h => if k = h then n else refCount rest h

/-- Modelled from the spec: `registryLookupOrCreate`, whose code is not under
`src/`. If an entry for the handle exists its reference count is incremented,
otherwise a new entry with reference count 1 is inserted. -/
def registryLookupOrCreate : Registry → Nat → Registry
  | [], h => [(h, 1)]
  | (k, n) :: rest, h =>
    if k = h then (k, n + 1) :: rest else (k, n) :: registryLookupOrCreate rest h

/-- Modelled from the spec: `registryRemove`, whose code is not under `src/`.
Removes the entry of the handle. -/
def registryRemove (r : Registry) (h : Nat) : Registry :=
  r.filter (fun e => decide (e.1 ≠ h))

/-- Modelled from the spec: `unref` of a wrapper, whose code is not under
`src/`. Decrements the reference count; when it reaches zero the wrapper is
destroyed and its registry entry removed. -/
def wrapperUnref : Registry → Nat → Registry
  | [], _ => []
  | (k, n) :: rest, h =>
    if k = h then
      (if n - 1 = 0 then registryRemove rest h else (k, n - 1) :: rest)
    else (k, n) :: wrapperUnref rest h

/-- Modelled from the spec: `registryMemcheck`, whose code is not under
`src/`. True when no wrapper is live. -/
def registryMemcheck (r : Registry) : Bool :=
  r.isEmpty

/-! ## Wrappers, calls and the world -/

/-- Device wrapper (`CL4Device *`), identified by the handle it wraps. -/
structure CL4Device where
  id : cl_device_id
  deriving DecidableEq

/-- Platform wrapper (`CL4Platform *`), identified by the handle it wraps. -/
structure CL4Platform where
  id : cl_platform_id
  deriving DecidableEq

/-- The calls `context.c` makes, in the order of the trace. -/
inductive Call where
  | g_slice_new0_CL4Context
  | g_slice_alloc0 (block_size : Nat)
  | cl4_device_new (id : cl_device_id)
  | cl4_device_info_value (dev : Option CL4Device) (param_name : Nat)
  | cl4_platform_new (id : cl_platform_id)
  | clCreateContext (properties : List Int) (num_devices : cl_uint)
      (devices : List cl_device_id)
  | cl4_device_unref (dev : Option CL4Device)
  | g_slice_free1 (block_size : Nat)
  | clReleaseContext (context : cl_context)
  | cl4_platform_unref (platform : Option CL4Platform)
  | g_slice_free_CL4Context
  deriving DecidableEq

/-- Process state seen by `context.c`. -/
structure World where
  device_wrappers : Registry
  platform_wrappers : Registry
  trace : List Call
  deriving DecidableEq

/-- Record a call at the end of the trace. -/
def World.emit (w : World) (c : Call) : World :=
  { w with trace := w.trace ++ [c] }

/-- Modelled from the spec: `cl4_device_new`, whose code is not under `src/`.
Wraps a device handle through the registry and does not fail. -/
def cl4_device_new (w : World) (id : cl_device_id) : CL4Device × World :=
  (⟨id⟩, { w with device_wrappers := registryLookupOrCreate w.device_wrappers id
                  trace := w.trace ++ [Call.cl4_device_new id] })

/-- Modelled from the spec: `cl4_device_unref`, whose code is not under
`src/`. One `unref` of a device wrapper; a no-op on `NULL`. -/
def cl4_device_unref (w : World) (dev : Option CL4Device) : World :=
  match dev with
  | none => w.emit (Call.cl4_device_unref none)
  | some d => { w with device_wrappers := wrapperUnref w.device_wrappers d.id
                       trace := w.trace ++ [Call.cl4_device_unref (some d)] }

/-- Modelled from the spec: `cl4_platform_new`, whose code is not under
`src/`. Wraps a platform handle through the registry and does not fail. -/
def cl4_platform_new (w : World) (id : cl_platform_id) : CL4Platform × World :=
  (⟨id⟩, { w with platform_wrappers := registryLookupOrCreate w.platform_wrappers id
                  trace := w.trace ++ [Call.cl4_platform_new id] })

/-- Modelled from the spec: `cl4_platform_unref`, whose code is not under
`src/`. One `unref` of a platform wrapper; a no-op on `NULL`. -/
def cl4_platform_unref (w : World) (p : Option CL4Platform) : World :=
  match p with
  | none => w.emit (Call.cl4_platform_unref none)
  | some q => { w with platform_wrappers := wrapperUnref w.platform_wrappers q.id
                       trace := w.trace ++ [Call.cl4_platform_unref (some q)] }

/-- Result of `cl4_device_info_value`: the returned pointer (`none` is `NULL`)
and what the call stored in its error argument. -/
structure InfoValue where
  value : Option Nat
  err : Option GError
  deriving DecidableEq

/-- What `context.c` takes from outside `src/`: the error domain and code
constants, the status description table, the pointer size, the device
information query and the native context creation. -/
structure Env where
  CL4_ERROR : GQuark
  CL4_OCL_ERROR : Int
  cl4_err : cl_int → String
  sizeof_ptr : Nat
  cl4_device_info_value : Option CL4Device → Nat → InfoValue
  clCreateContext : List Int → cl_uint → List cl_device_id → cl_context × cl_int

/-- Undefined behaviour and aborts of the C code. -/
inductive Fault where
  | null_deref
  | out_of_bounds
  | assertion_failed
  deriving DecidableEq

/-! ## `context.c` -/

/-- The `struct cl4_context`: platform wrapper, native context, number of
devices, device wrappers. -/
structure cl4_context where
  platform : Option CL4Platform
  context : cl_context
  num_devices : cl_uint
  devices : List (Option CL4Device)
  deriving DecidableEq

abbrev CL4Context := cl4_context

/-- The loop of `cl4_context_destroy` releasing the devices:
`for (i = 0; i < ctx->num_devices; i++) cl4_device_unref(ctx->devices[i])`,
with `remaining = num_devices - i`. -/
def cl4_context_destroy_devices (slots : List (Option CL4Device)) :
    Nat → Nat → World → Except Fault World
  | 0, _, w => .ok w
  | remaining + 1, i, w =>
    match slots[i]? with
    | none => .error Fault.out_of_bounds
    | some dev => cl4_context_destroy_devices slots remaining (i + 1) (cl4_device_unref w dev)

/-- Function `cl4_context_destroy` of `context.c`. -/
def cl4_context_destroy (env : Env) (w : World) (ctx : Option CL4Context) :
    Except Fault World :=
  match ctx with
  -- g_return_if_fail(ctx != NULL)
  | none => .ok w
  | some c =>
    -- Release devices in ctx.
    match cl4_context_destroy_devices c.devices c.num_devices 0 w with
    | .error f => .error f
    | .ok w1 =>
      -- Free device array.
      let w2 := w1.emit (Call.g_slice_free1 (c.num_devices * env.sizeof_ptr))
      -- Release context.
      let w3 := if c.context ≠ 0 then w2.emit (Call.clReleaseContext c.context) else w2
      -- Release platform.
      let w4 := match c.platform with
        | some p => cl4_platform_unref w3 (some p)
        | none => w3
      -- Release ctx.
      .ok (w4.emit Call.g_slice_free_CL4Context)

/-- What a call of `cl4_context_new` leaves: the returned pointer, the error
location and the world. -/
structure NewResult where
  ctx : Option CL4Context
  err : ErrPtr
  world : World
  deriving DecidableEq

/-- How the device loop of `cl4_context_new` ends. -/
inductive LoopExit where
  | done (slots : List (Option CL4Device)) (w : World)
  | returned (w : World)
  | fault (f : Fault)
  deriving DecidableEq

/-- The loop of `cl4_context_new` adding the device wrappers:
`for (i = 0; i < num_devices; i++)`, with `remaining = num_devices - i`.
`returned` is the `g_return_val_if_fail(devices[i] != NULL, NULL)`. -/
def cl4_context_new_devices (devices : List cl_device_id) :
    Nat → Nat → List (Option CL4Device) → World → LoopExit
  | 0, _, slots, w => .done slots w
  | remaining + 1, i, slots, w =>
    match devices[i]? with
    | none => .fault Fault.out_of_bounds
    | some d =>
      -- Make sure devices in list are not NULL.
      if d = 0 then .returned w
      else
        -- Create new device wrapper, add it to list.
        let r := cl4_device_new w d
        cl4_context_new_devices devices remaining (i + 1) (slots.set i (some r.1)) r.2

/-- The `error_handler` label of `cl4_context_new`. -/
def cl4_context_new_error_handler (env : Env) (w : World) (ctx : Option CL4Context)
    (err : ErrPtr) : Except Fault NewResult :=
  -- g_assert (err == NULL || *err != NULL)
  if err = some none then .error Fault.assertion_failed
  else
    -- Destroy the ctx, or what was possible to build of it.
    match cl4_context_destroy env w ctx with
    | .error f => .error f
    | .ok w1 => .ok ⟨none, err, w1⟩

/-- The message of the error of a failed native context creation. -/
def cl4_context_new_message (env : Env) (ocl_status : cl_int) : String :=
  "Function 'cl4_context_new': unable to create cl_context (OpenCL error "
    ++ toString ocl_status ++ ": " ++ env.cl4_err ocl_status ++ ")."

/-- Function `cl4_context_new` of `context.c`. -/
def cl4_context_new (env : Env) (w : World) (num_devices : cl_uint)
    (devices : Option (List cl_device_id)) (err : ErrPtr) : Except Fault NewResult :=
  -- Make sure number of devices is not zero.
  if num_devices = 0 then .ok ⟨none, err, w⟩
  else
    match devices with
    -- Make sure device list is not NULL.
    | none => .ok ⟨none, err, w⟩
    | some devs =>
      match err with
      -- Make sure err is NULL or it is not set.
      | some (some _) => .ok ⟨none, err, w⟩
      | _ =>
        -- Create ctx, set number of devices, allocate space for device wrappers.
        let w0 := (w.emit Call.g_slice_new0_CL4Context).emit
          (Call.g_slice_alloc0 (num_devices * env.sizeof_ptr))
        -- Add device wrappers to list of device wrappers.
        match cl4_context_new_devices devs num_devices 0 (List.replicate num_devices none) w0 with
        | .fault f => .error f
        | .returned w1 => .ok ⟨none, err, w1⟩
        | .done slots w1 =>
          -- Get context platform using first device.
          match slots[0]? with
          | none => .error Fault.out_of_bounds
          | some dev0 =>
            let q := env.cl4_device_info_value dev0 CL_DEVICE_PLATFORM
            let w2 := w1.emit (Call.cl4_device_info_value dev0 CL_DEVICE_PLATFORM)
            match q.value with
            | none => .error Fault.null_deref
            | some platform =>
              let ctx0 : CL4Context := ⟨none, 0, num_devices, slots⟩
              match ccl_if_err_propagate_goto err q.err with
              | (err1, true) => cl4_context_new_error_handler env w2 (some ctx0) err1
              | (err1, false) =>
                -- Create a platform wrapper object and keep it.
                let pw := cl4_platform_new w2 platform
                -- Set platform ID in context properties.
                let ctx_props : List Int := [CL_CONTEXT_PLATFORM, (platform : Int), 0]
                -- Create OpenCL context.
                let created := env.clCreateContext ctx_props num_devices devs
                let w4 := pw.2.emit (Call.clCreateContext ctx_props num_devices devs)
                let ctx2 : CL4Context := ⟨some pw.1, created.1, num_devices, slots⟩
                match ccl_if_err_create_goto err1 env.CL4_ERROR
                    (decide (CL_SUCCESS ≠ created.2)) env.CL4_OCL_ERROR
                    (cl4_context_new_message env created.2) with
                | (err2, true) => cl4_context_new_error_handler env w4 (some ctx2) err2
                | (err2, false) =>
                  -- g_assert (err == NULL || *err == NULL)
                  match err2 with
                  | some (some _) => .error Fault.assertion_failed
                  | _ => .ok ⟨some ctx2, err2, w4⟩

/-! ## Auxiliary definitions for the statements -/

/-- The world after `cl4_device_new` on each handle of `ds`, in order. -/
def wrapDevices (w : World) (ds : List cl_device_id) : World :=
  ds.foldl (fun v d => (cl4_device_new v d).2) w

/-- The world after `cl4_device_unref` on each slot, in order. -/
def unrefDevices (w : World) (slots : List (Option CL4Device)) : World :=
  slots.foldl cl4_device_unref w

/-- The device wrappers of the handles `ds`, as the slots of a device array. -/
def wrappersOf (ds : List cl_device_id) : List (Option CL4Device) :=
  ds.map (fun d => some (CL4Device.mk d))

/-- Every entry of the registry has a positive reference count. -/
def Registry.Live (r : Registry) : Prop := ∀ e ∈ r, 0 < e.2

/-- The context properties `cl4_context_new` passes to `clCreateContext`. -/
def ctxProps (platform : cl_platform_id) : List Int :=
  [CL_CONTEXT_PLATFORM, (platform : Int), 0]

/-- The calls of `cl4_context_new` up to and including the native creation,
for valid arguments and a platform query that delivers `platform`. -/
def buildCalls (env : Env) (devs : List cl_device_id) (platform : cl_platform_id) : List Call :=
  [Call.g_slice_new0_CL4Context, Call.g_slice_alloc0 (devs.length * env.sizeof_ptr)]
    ++ devs.map Call.cl4_device_new
    ++ [Call.cl4_device_info_value (devs.head?.map CL4Device.mk) CL_DEVICE_PLATFORM,
        Call.cl4_platform_new platform,
        Call.clCreateContext (ctxProps platform) devs.length devs]

/-- The calls of `cl4_context_destroy` on a context. -/
def destroyCalls (env : Env) (c : CL4Context) : List Call :=
  c.devices.map Call.cl4_device_unref
    ++ [Call.g_slice_free1 (c.num_devices * env.sizeof_ptr)]
    ++ (if c.context ≠ 0 then [Call.clReleaseContext c.context] else [])
    ++ (match c.platform with
        | some p => [Call.cl4_platform_unref (some p)]
        | none => [])
    ++ [Call.g_slice_free_CL4Context]

/-- The world in which `cl4_context_new`, called in `w` with valid arguments,
has made the calls `buildCalls`. -/
def builtWorld (env : Env) (w : World) (devs : List cl_device_id)
    (platform : cl_platform_id) : World where
  device_wrappers := devs.foldl registryLookupOrCreate w.device_wrappers
  platform_wrappers := registryLookupOrCreate w.platform_wrappers platform
  trace := w.trace ++ buildCalls env devs platform

/-- The context `cl4_context_new` has built after the native creation. -/
def builtContext (env : Env) (devs : List cl_device_id) (platform : cl_platform_id) :
    CL4Context where
  platform := some ⟨platform⟩
  context := (env.clCreateContext (ctxProps platform) devs.length devs).1
  num_devices := devs.length
  devices := wrappersOf devs

/-- The world after the calls `destroyCalls` on a context. -/
def destroyedWorld (env : Env) (w : World) (c : CL4Context) : World where
  device_wrappers := (unrefDevices w c.devices).device_wrappers
  platform_wrappers :=
    match c.platform with
    | some p => wrapperUnref w.platform_wrappers p.id
    | none => w.platform_wrappers
  trace := w.trace ++ destroyCalls env c

/-- An environment for the concrete evaluations: every platform query delivers
platform `5`, native creation returns context `9` with `CL_SUCCESS`. -/
def sampleEnv : Env where
  CL4_ERROR := 1
  CL4_OCL_ERROR := 10
  cl4_err := fun _ => "CL_ERROR"
  sizeof_ptr := 8
  cl4_device_info_value := fun _ _ => ⟨some 5, none⟩
  clCreateContext := fun _ _ _ => (9, 0)

/-- The environment `sampleEnv` with native creation failing with `status`. -/
def failingCreateEnv (status : cl_int) : Env :=
  { sampleEnv with clCreateContext := fun _ _ _ => (0, status) }

/-- The environment `sampleEnv` with the platform query failing: it returns
`NULL` and sets its error. -/
def failingQueryEnv : Env :=
  { sampleEnv with cl4_device_info_value := fun _ _ => ⟨none, some ⟨1, 10, "query failed"⟩⟩ }

/-- The world with no live wrapper and no call made. -/
def emptyWorld : World := ⟨[], [], []⟩


/-! ## The control points of `cl4_context_new` -/

/-- Where a run of the body of `cl4_context_new` ends: in a fault, in the
`return NULL` of a `g_return_val_if_fail`, in a jump to the `error_handler`
label with the context built so far, or at the success point before
`goto finish`. -/
inductive Flow where
  | fault (f : Fault)
  | returned (err : ErrPtr) (w : World)
  | error_handler (ctx : CL4Context) (err : ErrPtr) (w : World)
  | finish (ctx : CL4Context) (err : ErrPtr) (w : World)
  deriving DecidableEq

/-- The body of `cl4_context_new` of `context.c` up to its control points: the
same statements as `cl4_context_new`, stopped where the code jumps to
`error_handler` or reaches the success point. -/
def cl4_context_new_flow (env : Env) (w : World) (num_devices : cl_uint)
    (devices : Option (List cl_device_id)) (err : ErrPtr) : Flow :=
  if num_devices = 0 then .returned err w
  else
    match devices with
    | none => .returned err w
    | some devs =>
      match err with
      | some (some _) => .returned err w
      | _ =>
        let w0 := (w.emit Call.g_slice_new0_CL4Context).emit
          (Call.g_slice_alloc0 (num_devices * env.sizeof_ptr))
        match cl4_context_new_devices devs num_devices 0 (List.replicate num_devices none) w0 with
        | .fault f => .fault f
        | .returned w1 => .returned err w1
        | .done slots w1 =>
          match slots[0]? with
          | none => .fault Fault.out_of_bounds
          | some dev0 =>
            let q := env.cl4_device_info_value dev0 CL_DEVICE_PLATFORM
            let w2 := w1.emit (Call.cl4_device_info_value dev0 CL_DEVICE_PLATFORM)
            match q.value with
            | none => .fault Fault.null_deref
            | some platform =>
              let ctx0 : CL4Context := ⟨none, 0, num_devices, slots⟩
              match ccl_if_err_propagate_goto err q.err with
              | (err1, true) => .error_handler ctx0 err1 w2
              | (err1, false) =>
                let pw := cl4_platform_new w2 platform
                let ctx_props : List Int := [CL_CONTEXT_PLATFORM, (platform : Int), 0]
                let created := env.clCreateContext ctx_props num_devices devs
                let w4 := pw.2.emit (Call.clCreateContext ctx_props num_devices devs)
                let ctx2 : CL4Context := ⟨some pw.1, created.1, num_devices, slots⟩
                match ccl_if_err_create_goto err1 env.CL4_ERROR
                    (decide (CL_SUCCESS ≠ created.2)) env.CL4_OCL_ERROR
                    (cl4_context_new_message env created.2) with
                | (err2, true) => .error_handler ctx2 err2 w4
                | (err2, false) => .finish ctx2 err2 w4

/-- What `cl4_context_new` does from a control point on: the assertion and
`return ctx` at the success point, the `error_handler` label. -/
def Flow.complete (env : Env) : Flow → Except Fault NewResult
  | .fault f => .error f
  | .returned err w => .ok ⟨none, err, w⟩
  | .error_handler ctx err w => cl4_context_new_error_handler env w (some ctx) err
  | .finish ctx err w =>
    match err with
    | some (some _) => .error Fault.assertion_failed
    | _ => .ok ⟨some ctx, err, w⟩

/-! ## Wrapper objects: `ref`, adoption and `unwrap` (modelled from the spec) -/

/-- Modelled from the spec: `ref(obj)`, whose code is not under `src/`.
Increments the `wrapperRefCount` of the wrapper object of handle `h`, the
registry entry of `h`; there is no failure mode. -/
def wrapperRef : Registry → Nat → Registry
  | [], _ => []
  | (k, n) :: rest, h =>
    if k = h then (k, n + 1) :: rest else (k, n) :: wrapperRef rest h

/-- The wrapper object of handle `h` in the registry, when there is one: its
native handle and its wrapper reference count. -/
def registryFind : Registry → Nat → Option (Nat × Nat)
  | [], _ => none
  | (k, n) :: rest, h => if k = h then some (k, n) else registryFind rest h

/-- Modelled from the spec: construction by adoption `newWrap(nativeHandle)`,
whose code is not under `src/`. The handle goes through
`registryLookupOrCreate`; the wrapper object returned is the registry entry of
the handle (`none`: no object). -/
def newWrap (r : Registry) (h : Nat) : Option (Nat × Nat) × Registry :=
  (registryFind (registryLookupOrCreate r h) h, registryLookupOrCreate r h)

/-- Modelled from the spec: `unwrap(wrapper)`, whose code is not under `src/`.
The native handle of a wrapper object. -/
def unwrap (obj : Nat × Nat) : Nat := obj.1

/-- The registry after `k` calls of `ref` on the wrapper of handle `h`. -/
def refTimes (r : Registry) (h : Nat) : Nat → Registry
  | 0 => r
  | k + 1 => wrapperRef (refTimes r h k) h

/-- The registry after `k` calls of `unref` on the wrapper of handle `h`. -/
def unrefTimes (r : Registry) (h : Nat) : Nat → Registry
  | 0 => r
  | k + 1 => wrapperUnref (unrefTimes r h k) h

/-! ## Image memory objects (modelled from the spec) and `tests/lib/test_image.c` -/

/-- The two's complement bit pattern of a 32-bit integer. -/
def bits32 (v : Int) : Nat := (v % 2 ^ 32).toNat

/-- The `gint32` with a given bit pattern. -/
def gint32_of_bits (u : Nat) : Int :=
  if u % 2 ^ 32 < 2 ^ 31 then ((u % 2 ^ 32 : Nat) : Int) else ((u % 2 ^ 32 : Nat) : Int) - 2 ^ 32

/-- C operator `&` on two `int` operands (two's complement, 32 bits). -/
def int_and (a b : Int) : Int := gint32_of_bits (bits32 a &&& bits32 b)

/-- C operator `>>` on a signed `int`: arithmetic shift. -/
def int_shr (a : Int) (k : Nat) : Int := a >>> k

/-- A `cl_uint4` vector. -/
structure cl_uint4 where
  s0 : Nat
  s1 : Nat
  s2 : Nat
  s3 : Nat
  deriving DecidableEq

/-- The fill colour of `fill_test` in `test_image.c`:
`{ rc & 0xFF, (rc >> 8) & 0xFF, (rc >> 16) & 0xFF, (rc >> 24) & 0xFF }`, each
`int` converted to `cl_uint`. -/
def fill_test_color (rc : Int) : cl_uint4 :=
  ⟨bits32 (int_and rc 0xFF), bits32 (int_and (int_shr rc 8) 0xFF),
   bits32 (int_and (int_shr rc 16) 0xFF), bits32 (int_and (int_shr rc 24) 0xFF)⟩

/-- A pixel of an image with channel order `CL_RGBA` and channel data type
`CL_UNSIGNED_INT8` (the `image_format` of the tests): four channel bytes, in
memory in this order. -/
structure Pixel where
  r : Nat
  g : Nat
  b : Nat
  a : Nat
  deriving DecidableEq

/-- The four bytes of a `gint32` host array element, little-endian, as a pixel. -/
def pixel_of_gint32 (v : Int) : Pixel :=
  ⟨bits32 v % 256, bits32 v / 2 ^ 8 % 256, bits32 v / 2 ^ 16 % 256, bits32 v / 2 ^ 24 % 256⟩

/-- The `gint32` host array element made of the four bytes of a pixel,
little-endian. -/
def gint32_of_pixel (p : Pixel) : Int :=
  gint32_of_bits (p.r + 2 ^ 8 * p.g + 2 ^ 16 * p.b + 2 ^ 24 * p.a)

/-- The pixel a fill colour is stored as: each component is converted to an
8-bit channel with saturation. -/
def pixel_of_color (c : cl_uint4) : Pixel :=
  ⟨min c.s0 255, min c.s1 255, min c.s2 255, min c.s3 255⟩

/-- An `origin` or `region` argument, a `size_t[3]`. -/
structure Size3 where
  x : Nat
  y : Nat
  z : Nat
  deriving DecidableEq

/-- Modelled from the spec: the backing native resource of a 2D image memory
object, which is not under `src/`: its width, its height and its pixels. -/
structure ImageMem where
  width : Nat
  height : Nat
  pixel : Nat → Nat → Pixel

/-- A region of a 2D image is valid when it lies inside the image, with
`origin[2] == 0` and `region[2] == 1`. -/
def regionValid (img : ImageMem) (origin region : Size3) : Bool :=
  decide (origin.z = 0) && decide (region.z = 1)
    && decide (origin.x + region.x ≤ img.width) && decide (origin.y + region.y ≤ img.height)

/-- Whether pixel `(x, y)` lies in a region. -/
def inRegion (origin region : Size3) (x y : Nat) : Bool :=
  decide (origin.x ≤ x) && decide (x < origin.x + region.x)
    && decide (origin.y ≤ y) && decide (y < origin.y + region.y)

/-- Modelled from the spec: the write operation on an image memory object (a
blocking `ccl_image_enqueue_write` with row and slice pitch 0), which is not
under `src/`. The rows of the region are taken from the host array, one after
the other; `none` is a failed write. -/
def imageWrite (img : ImageMem) (origin region : Size3) (host : List Int) : Option ImageMem :=
  if regionValid img origin region && decide (region.x * region.y ≤ host.length) then
    some { img with
      pixel := fun x y =>
        if inRegion origin region x y then
          pixel_of_gint32 (host.getD ((y - origin.y) * region.x + (x - origin.x)) 0)
        else img.pixel x y }
  else none

/-- Modelled from the spec: the read operation on an image memory object (a
blocking `ccl_image_enqueue_read` with row and slice pitch 0), which is not
under `src/`. The host array receives the rows of the region, one after the
other; `none` is a failed read. -/
def imageRead (img : ImageMem) (origin region : Size3) : Option (List Int) :=
  if regionValid img origin region then
    some ((List.range (region.x * region.y)).map
      (fun i => gint32_of_pixel (img.pixel (origin.x + i % region.x) (origin.y + i / region.x))))
  else none

/-- Modelled from the spec: the fill operation on an image memory object
(`ccl_image_enqueue_fill`), which is not under `src/`. Every pixel of the
region becomes the fill colour; `none` is a failed fill. -/
def imageFill (img : ImageMem) (color : cl_uint4) (origin region : Size3) : Option ImageMem :=
  if regionValid img origin region then
    some { img with
      pixel := fun x y =>
        if inRegion origin region x y then pixel_of_color color else img.pixel x y }
  else none

/-- Modelled from the spec: creation of a 2D image memory object with
`CL_MEM_COPY_HOST_PTR` (`ccl_image_new` with a host pointer), which is not
under `src/`: the image holds the host data, row after row; `none` is a failed
creation. -/
def imageNewCopyHostPtr (width height : Nat) (host : List Int) : Option ImageMem :=
  imageWrite ⟨width, height, fun _ _ => ⟨0, 0, 0, 0⟩⟩ ⟨0, 0, 0⟩ ⟨width, height, 1⟩ host

/-- An image of 4 by 2 pixels, all zero. -/
def sampleImage : ImageMem := ⟨4, 2, fun _ _ => ⟨0, 0, 0, 0⟩⟩

/-! ## Lemmas -/

/-! ### The registry -/
theorem refCount_registryLookupOrCreate (r : Registry) (h x : Nat) :
    refCount (registryLookupOrCreate r h) x = refCount r x + (if x = h then 1 else 0) := by
  induction r with
  | nil =>
    by_cases hx : x = h
    · subst hx; simp [registryLookupOrCreate, refCount]
    · have : ¬ h = x := fun e => hx e.symm
      simp [registryLookupOrCreate, refCount, hx, this]
  | cons e rest ih =>
    obtain ⟨k, n⟩ := e
    by_cases hk : k = h
    · subst hk
      by_cases hx : x = k
      · subst hx; simp [registryLookupOrCreate, refCount]
      · have : ¬ k = x := fun e => hx e.symm
        simp [registryLookupOrCreate, refCount, hx, this]
    · by_cases hkx : k = x
      · subst hkx; simp [registryLookupOrCreate, refCount, hk]
      · simp [registryLookupOrCreate, refCount, hk, hkx, ih]

theorem refCount_registryRemove (r : Registry) (h x : Nat) :
    refCount (registryRemove r h) x = if x = h then 0 else refCount r x := by
  induction r with
  | nil => simp [registryRemove, refCount]
  | cons e rest ih =>
    obtain ⟨k, n⟩ := e
    unfold registryRemove at ih ⊢
    by_cases hk : k = h
    · subst hk
      by_cases hx : x = k
      · subst hx; simpa [refCount] using ih
      · have : ¬ k = x := fun e => hx e.symm
        simpa [refCount, hx, this] using ih
    · by_cases hkx : k = x
      · subst hkx; simp [refCount, hk, List.filter_cons]
      · simpa [refCount, hk, hkx, List.filter_cons] using ih

theorem refCount_wrapperUnref (r : Registry) (h x : Nat) :
    refCount (wrapperUnref r h) x = refCount r x - (if x = h then 1 else 0) := by
  induction r with
  | nil => simp [wrapperUnref, refCount]
  | cons e rest ih =>
    obtain ⟨k, n⟩ := e
    by_cases hk : k = h
    · subst hk
      by_cases hn : n - 1 = 0
      · by_cases hx : x = k
        · subst hx; simp [wrapperUnref, refCount, hn, refCount_registryRemove]
        · have : ¬ k = x := fun e => hx e.symm
          simp [wrapperUnref, refCount, hn, refCount_registryRemove, hx, this]
      · by_cases hx : x = k
        · subst hx; simp [wrapperUnref, refCount, hn]
        · have : ¬ k = x := fun e => hx e.symm
          simp [wrapperUnref, refCount, hn, hx, this]
    · by_cases hkx : k = x
      · subst hkx; simp [wrapperUnref, refCount, hk]
      · simp [wrapperUnref, refCount, hk, hkx, ih]


theorem live_registryLookupOrCreate (r : Registry) (h : Nat) (hr : Registry.Live r) :
    Registry.Live (registryLookupOrCreate r h) := by
  induction r with
  | nil => intro e he; simp [registryLookupOrCreate] at he; subst he; simp
  | cons e rest ih =>
    obtain ⟨k, n⟩ := e
    have hrest : Registry.Live rest := fun e he => hr e (List.mem_cons_of_mem _ he)
    by_cases hk : k = h
    · intro e he
      simp only [registryLookupOrCreate, hk, if_true, List.mem_cons] at he
      rcases he with he | he
      · subst he; simp
      · exact hrest e he
    · intro e he
      simp only [registryLookupOrCreate, hk, if_false, List.mem_cons] at he
      rcases he with he | he
      · subst he; exact hr _ (List.mem_cons_self _ _)
      · exact ih hrest e he

theorem live_registryRemove (r : Registry) (h : Nat) (hr : Registry.Live r) :
    Registry.Live (registryRemove r h) := by
  intro e he
  exact hr e (List.mem_of_mem_filter he)

theorem live_wrapperUnref (r : Registry) (h : Nat) (hr : Registry.Live r) :
    Registry.Live (wrapperUnref r h) := by
  induction r with
  | nil => intro e he; simp [wrapperUnref] at he
  | cons e rest ih =>
    obtain ⟨k, n⟩ := e
    have hrest : Registry.Live rest := fun e he => hr e (List.mem_cons_of_mem _ he)
    by_cases hk : k = h
    · by_cases hn : n - 1 = 0
      · simp only [wrapperUnref, hk, if_true, hn]
        exact live_registryRemove rest h hrest
      · intro e he
        simp only [wrapperUnref, hk, if_true, hn, if_false, List.mem_cons] at he
        rcases he with he | he
        · subst he; exact Nat.pos_of_ne_zero hn
        · exact hrest e he
    · intro e he
      simp only [wrapperUnref, hk, if_false, List.mem_cons] at he
      rcases he with he | he
      · subst he; exact hr _ (List.mem_cons_self _ _)
      · exact ih hrest e he

theorem eq_nil_of_refCount_zero (r : Registry) (hr : Registry.Live r)
    (hz : ∀ x, refCount r x = 0) : r = [] := by
  cases r with
  | nil => rfl
  | cons e rest =>
    obtain ⟨k, n⟩ := e
    have h1 := hz k
    have h2 := hr (k, n) (List.mem_cons_self _ _)
    simp [refCount] at h1
    omega


/-! ### The two loops -/

theorem cl4_context_new_devices_done (post : List cl_device_id) :
    ∀ (pre : List cl_device_id) (slots : List (Option CL4Device)) (w : World),
      (∀ d ∈ post, d ≠ 0) → slots.length = pre.length + post.length →
      cl4_context_new_devices (pre ++ post) post.length pre.length slots w =
        LoopExit.done (slots.take pre.length ++ wrappersOf post) (wrapDevices w post) := by
  induction post with
  | nil =>
    intro pre slots w _ hlen
    simp [cl4_context_new_devices, wrappersOf, wrapDevices, List.take_of_length_le, hlen]
  | cons d ps ih =>
    intro pre slots w hnz hlen
    have hd : d ≠ 0 := hnz d (List.mem_cons_self _ _)
    have hps : ∀ e ∈ ps, e ≠ 0 := fun e he => hnz e (List.mem_cons_of_mem _ he)
    have hget : (pre ++ d :: ps)[pre.length]? = some d := by
      rw [List.getElem?_append_right (Nat.le_refl _)]; simp
    have hlt : pre.length < slots.length := by simp at hlen; omega
    have step := ih (pre ++ [d]) (slots.set pre.length (some ⟨d⟩)) (cl4_device_new w d).2 hps
      (by simp at hlen ⊢; omega)
    have htake : (slots.set pre.length (some (CL4Device.mk d))).take (pre.length + 1)
        = slots.take pre.length ++ [some (CL4Device.mk d)] := by
      rw [List.take_succ, List.set_take, List.set_eq_of_length_le (by simp)]
      simp [List.getElem?_set, hlt]
    simp only [List.append_assoc, List.singleton_append, List.length_append, List.length_singleton] at step
    simp only [List.length_cons, cl4_context_new_devices, hget, hd, if_false]
    have hfst : (cl4_device_new w d).1 = CL4Device.mk d := rfl
    rw [hfst, step, htake]
    simp [wrappersOf, wrapDevices]

theorem cl4_context_destroy_devices_ok (post : List (Option CL4Device)) :
    ∀ (pre : List (Option CL4Device)) (w : World),
      cl4_context_destroy_devices (pre ++ post) post.length pre.length w =
        Except.ok (unrefDevices w post) := by
  induction post with
  | nil => intro pre w; simp [cl4_context_destroy_devices, unrefDevices]
  | cons d ps ih =>
    intro pre w
    have hget : (pre ++ d :: ps)[pre.length]? = some d := by
      rw [List.getElem?_append_right (Nat.le_refl _)]; simp
    have step := ih (pre ++ [d]) (cl4_device_unref w d)
    simp only [List.append_assoc, List.singleton_append, List.length_append, List.length_singleton] at step
    simp only [List.length_cons, cl4_context_destroy_devices, hget]
    rw [step]
    simp [unrefDevices]


/-! ### The worlds after the two loops -/

theorem wrapDevices_device_wrappers (ds : List cl_device_id) : ∀ (w : World),
    (wrapDevices w ds).device_wrappers = ds.foldl registryLookupOrCreate w.device_wrappers := by
  induction ds with
  | nil => intro w; rfl
  | cons d ds ih => intro w; simp only [wrapDevices, List.foldl_cons] at ih ⊢; rw [ih]; rfl

theorem wrapDevices_platform_wrappers (ds : List cl_device_id) : ∀ (w : World),
    (wrapDevices w ds).platform_wrappers = w.platform_wrappers := by
  induction ds with
  | nil => intro w; rfl
  | cons d ds ih => intro w; simp only [wrapDevices, List.foldl_cons] at ih ⊢; rw [ih]; rfl

theorem wrapDevices_trace (ds : List cl_device_id) : ∀ (w : World),
    (wrapDevices w ds).trace = w.trace ++ ds.map Call.cl4_device_new := by
  induction ds with
  | nil => intro w; simp [wrapDevices]
  | cons d ds ih =>
    intro w; simp only [wrapDevices, List.foldl_cons] at ih ⊢; rw [ih]
    simp [cl4_device_new]

theorem unrefDevices_wrappersOf_device_wrappers (ds : List cl_device_id) : ∀ (w : World),
    (unrefDevices w (wrappersOf ds)).device_wrappers = ds.foldl wrapperUnref w.device_wrappers := by
  induction ds with
  | nil => intro w; rfl
  | cons d ds ih =>
    intro w
    simp only [unrefDevices, wrappersOf, List.map_cons, List.foldl_cons] at ih ⊢; rw [ih]; rfl

theorem unrefDevices_platform_wrappers (slots : List (Option CL4Device)) : ∀ (w : World),
    (unrefDevices w slots).platform_wrappers = w.platform_wrappers := by
  induction slots with
  | nil => intro w; rfl
  | cons d ds ih =>
    intro w; simp only [unrefDevices, List.foldl_cons] at ih ⊢; rw [ih]
    cases d <;> rfl

theorem unrefDevices_trace (slots : List (Option CL4Device)) : ∀ (w : World),
    (unrefDevices w slots).trace = w.trace ++ slots.map Call.cl4_device_unref := by
  induction slots with
  | nil => intro w; simp [unrefDevices]
  | cons d ds ih =>
    intro w; simp only [unrefDevices, List.foldl_cons] at ih ⊢; rw [ih]
    cases d <;> simp [cl4_device_unref, World.emit]

/-! ### Reference counts after a run of `new` or `unref` calls -/

theorem refCount_foldl_registryLookupOrCreate (ds : List Nat) : ∀ (r : Registry) (x : Nat),
    refCount (ds.foldl registryLookupOrCreate r) x = refCount r x + ds.count x := by
  induction ds with
  | nil => intro r x; simp
  | cons d ds ih =>
    intro r x
    rw [List.foldl_cons, ih, refCount_registryLookupOrCreate, List.count_cons]
    by_cases h : x = d
    · subst h; simp; omega
    · have : ¬ d = x := fun e => h e.symm
      simp [h, this]

theorem refCount_foldl_wrapperUnref (ds : List Nat) : ∀ (r : Registry) (x : Nat),
    refCount (ds.foldl wrapperUnref r) x = refCount r x - ds.count x := by
  induction ds with
  | nil => intro r x; simp
  | cons d ds ih =>
    intro r x
    rw [List.foldl_cons, ih, refCount_wrapperUnref, List.count_cons]
    by_cases h : x = d
    · subst h; simp; omega
    · have : ¬ d = x := fun e => h e.symm
      simp [h, this]

theorem live_foldl_registryLookupOrCreate (ds : List Nat) : ∀ (r : Registry),
    Registry.Live r → Registry.Live (ds.foldl registryLookupOrCreate r) := by
  induction ds with
  | nil => intro r hr; exact hr
  | cons d ds ih => intro r hr; exact ih _ (live_registryLookupOrCreate r d hr)

theorem live_foldl_wrapperUnref (ds : List Nat) : ∀ (r : Registry),
    Registry.Live r → Registry.Live (ds.foldl wrapperUnref r) := by
  induction ds with
  | nil => intro r hr; exact hr
  | cons d ds ih => intro r hr; exact ih _ (live_wrapperUnref r d hr)

/-- Wrapping the handles `ds` and then unref-ing each of them once restores
every reference count. -/
theorem refCount_wrap_unref (ds : List Nat) (r : Registry) (x : Nat) :
    refCount (ds.foldl wrapperUnref (ds.foldl registryLookupOrCreate r)) x = refCount r x := by
  rw [refCount_foldl_wrapperUnref, refCount_foldl_registryLookupOrCreate]; omega

/-- Wrapping the handles `ds` in an empty registry and then unref-ing each of
them once leaves the registry empty. -/
theorem wrap_unref_nil (ds : List Nat) :
    ds.foldl wrapperUnref (ds.foldl registryLookupOrCreate []) = [] := by
  apply eq_nil_of_refCount_zero
  · apply live_foldl_wrapperUnref
    apply live_foldl_registryLookupOrCreate
    intro e he; cases he
  · intro x; rw [refCount_wrap_unref]; rfl
/-! ### `cl4_context_destroy` and `cl4_context_new` in closed form -/

theorem cl4_context_destroy_some (env : Env) (w : World) (c : CL4Context)
    (hlen : c.devices.length = c.num_devices) :
    cl4_context_destroy env w (some c) = Except.ok (destroyedWorld env w c) := by
  have hloop := cl4_context_destroy_devices_ok c.devices [] w
  simp only [List.nil_append, List.length_nil, hlen] at hloop
  simp only [cl4_context_destroy, hloop]
  congr 1
  cases hp : c.platform <;> by_cases hc : c.context = 0 <;>
    simp [destroyedWorld, destroyCalls, World.emit, cl4_platform_unref, hp, hc,
      unrefDevices_trace, unrefDevices_platform_wrappers]

theorem cl4_context_new_valid (env : Env) (w : World) (devs : List cl_device_id) (err : ErrPtr)
    (p : cl_platform_id) (hne : devs ≠ []) (hnz : ∀ d ∈ devs, d ≠ 0)
    (herr : err = none ∨ err = some none)
    (hq : env.cl4_device_info_value (devs.head?.map CL4Device.mk) CL_DEVICE_PLATFORM
      = ⟨some p, none⟩) :
    cl4_context_new env w devs.length (some devs) err =
      if (env.clCreateContext (ctxProps p) devs.length devs).2 = CL_SUCCESS then
        Except.ok ⟨some (builtContext env devs p), err, builtWorld env w devs p⟩
      else
        Except.ok ⟨none,
          g_set_error err env.CL4_ERROR env.CL4_OCL_ERROR
            (cl4_context_new_message env (env.clCreateContext (ctxProps p) devs.length devs).2),
          destroyedWorld env (builtWorld env w devs p) (builtContext env devs p)⟩ := by
  obtain ⟨d0, rest, rfl⟩ := List.exists_cons_of_ne_nil hne
  have hloop := cl4_context_new_devices_done (d0 :: rest) []
    (List.replicate (d0 :: rest).length none)
    ((w.emit Call.g_slice_new0_CL4Context).emit
      (Call.g_slice_alloc0 ((d0 :: rest).length * env.sizeof_ptr))) hnz (by simp)
  simp only [List.nil_append, List.length_nil, List.take_zero] at hloop
  simp only [List.head?_cons, Option.map_some'] at hq
  have hbuilt : ((cl4_platform_new ((wrapDevices ((w.emit Call.g_slice_new0_CL4Context).emit
        (Call.g_slice_alloc0 ((d0 :: rest).length * env.sizeof_ptr))) (d0 :: rest)).emit
        (Call.cl4_device_info_value (some ⟨d0⟩) CL_DEVICE_PLATFORM)) p).2).emit
        (Call.clCreateContext (ctxProps p) (d0 :: rest).length (d0 :: rest))
      = builtWorld env w (d0 :: rest) p := by
    simp [builtWorld, buildCalls, World.emit, cl4_platform_new, wrapDevices_trace,
      wrapDevices_platform_wrappers, wrapDevices_device_wrappers]
  have hdestroy := cl4_context_destroy_some env (builtWorld env w (d0 :: rest) p)
    (builtContext env (d0 :: rest) p) (by simp [builtContext, wrappersOf])
  unfold cl4_context_new
  rw [if_neg (by simp)]
  have hctx : (⟨some (cl4_platform_new ((wrapDevices ((w.emit Call.g_slice_new0_CL4Context).emit
        (Call.g_slice_alloc0 ((d0 :: rest).length * env.sizeof_ptr))) (d0 :: rest)).emit
        (Call.cl4_device_info_value (some ⟨d0⟩) CL_DEVICE_PLATFORM)) p).1,
      (env.clCreateContext (ctxProps p) (d0 :: rest).length (d0 :: rest)).1,
      (d0 :: rest).length, wrappersOf (d0 :: rest)⟩ : CL4Context)
      = builtContext env (d0 :: rest) p := rfl
  have hslot : (wrappersOf (d0 :: rest))[0]? = some (some ⟨d0⟩) := by simp [wrappersOf]
  have hprops : [CL_CONTEXT_PLATFORM, (p : Int), 0] = ctxProps p := rfl
  by_cases hst : (env.clCreateContext (ctxProps p) (d0 :: rest).length (d0 :: rest)).2 = CL_SUCCESS
  · have hst2 : ¬ CL_SUCCESS ≠ (env.clCreateContext (ctxProps p) (d0 :: rest).length (d0 :: rest)).2 :=
      fun h => h hst.symm
    generalize (d0 :: rest).length = n at *
    rcases herr with rfl | rfl <;>
      simp only [hloop, List.nil_append, hslot, hq, hprops, ccl_if_err_propagate_goto,
        ccl_if_err_create_goto, hst2, decide_False, Bool.false_eq_true, if_false, hbuilt, hctx,
        if_pos hst]
  · have hst2 : CL_SUCCESS ≠ (env.clCreateContext (ctxProps p) (d0 :: rest).length (d0 :: rest)).2 :=
      fun h => hst h.symm
    generalize (d0 :: rest).length = n at *
    rcases herr with rfl | rfl <;>
      simp [hloop, hslot, hq, hprops, ccl_if_err_propagate_goto,
        ccl_if_err_create_goto, hst2, hbuilt, hctx, hst, cl4_context_new_error_handler,
        hdestroy, g_set_error]

/-! ### Construction followed by destruction -/

theorem refCount_unref_lookupOrCreate (r : Registry) (p x : Nat) :
    refCount (wrapperUnref (registryLookupOrCreate r p) p) x = refCount r x := by
  rw [refCount_wrapperUnref, refCount_registryLookupOrCreate]; omega

theorem destroyCalls_builtContext (env : Env) (devs : List cl_device_id) (p : cl_platform_id) :
    destroyCalls env (builtContext env devs p) =
      devs.map (fun d => Call.cl4_device_unref (some ⟨d⟩))
        ++ [Call.g_slice_free1 (devs.length * env.sizeof_ptr)]
        ++ (if (env.clCreateContext (ctxProps p) devs.length devs).1 ≠ 0 then
              [Call.clReleaseContext (env.clCreateContext (ctxProps p) devs.length devs).1]
            else [])
        ++ [Call.cl4_platform_unref (some ⟨p⟩), Call.g_slice_free_CL4Context] := by
  simp [destroyCalls, builtContext, wrappersOf]

theorem destroyedWorld_built_device_refCount (env : Env) (w : World) (devs : List cl_device_id)
    (p : cl_platform_id) (x : Nat) :
    refCount (destroyedWorld env (builtWorld env w devs p) (builtContext env devs p)).device_wrappers x
      = refCount w.device_wrappers x := by
  simp only [destroyedWorld, builtContext, unrefDevices_wrappersOf_device_wrappers, builtWorld]
  exact refCount_wrap_unref devs w.device_wrappers x

theorem destroyedWorld_built_platform_refCount (env : Env) (w : World) (devs : List cl_device_id)
    (p : cl_platform_id) (x : Nat) :
    refCount (destroyedWorld env (builtWorld env w devs p) (builtContext env devs p)).platform_wrappers x
      = refCount w.platform_wrappers x := by
  simp only [destroyedWorld, builtContext, builtWorld]
  exact refCount_unref_lookupOrCreate w.platform_wrappers p x

theorem registryMemcheck_iff (r : Registry) : registryMemcheck r = true ↔ r = [] := by
  cases r <;> simp [registryMemcheck]

/-! ### The early return inside the device loop -/

theorem cl4_context_new_devices_returned (mid : List cl_device_id) :
    ∀ (pre post : List cl_device_id) (k : Nat) (slots : List (Option CL4Device)) (w : World),
      (∀ d ∈ mid, d ≠ 0) →
      cl4_context_new_devices (pre ++ mid ++ 0 :: post) (mid.length + k + 1) pre.length slots w =
        LoopExit.returned (wrapDevices w mid) := by
  induction mid with
  | nil =>
    intro pre post k slots w _
    have hget : (pre ++ [] ++ 0 :: post)[pre.length]? = some 0 := by
      rw [List.append_nil, List.getElem?_append_right (Nat.le_refl _)]; simp
    simp only [List.length_nil, Nat.zero_add, cl4_context_new_devices, hget, if_true]
    rfl
  | cons d ds ih =>
    intro pre post k slots w hnz
    have hd : d ≠ 0 := hnz d (List.mem_cons_self _ _)
    have hds : ∀ e ∈ ds, e ≠ 0 := fun e he => hnz e (List.mem_cons_of_mem _ he)
    have hget : (pre ++ d :: ds ++ 0 :: post)[pre.length]? = some d := by
      rw [List.append_assoc, List.getElem?_append_right (Nat.le_refl _)]; simp
    have step := ih (pre ++ [d]) post k (slots.set pre.length (some ⟨d⟩)) (cl4_device_new w d).2 hds
    simp only [List.append_assoc, List.singleton_append, List.length_append,
      List.length_singleton, List.cons_append, List.nil_append] at step
    have hcount : (d :: ds).length + k + 1 = (ds.length + k + 1) + 1 := by simp; omega
    have hfst : (cl4_device_new w d).1 = CL4Device.mk d := rfl
    rw [hcount, cl4_context_new_devices]
    simp only [List.append_assoc, List.cons_append] at hget ⊢
    simp only [hget, hd, if_false, hfst]
    rw [step]
    simp [wrapDevices]

/-- The early return of `cl4_context_new` in general: when the device list
holds the non-NULL handles `front`, then `NULL`, then `back`, and the error
output is null or unset, the call returns no object after `cl4_device_new` on
every handle of `front`, with no `cl4_device_unref`: the reference count of
every handle `h` has grown by the number of times `h` occurs in `front`. -/
theorem cl4_context_new_null_handle (env : Env) (w : World) (front back : List cl_device_id)
    (err : ErrPtr) (hnz : ∀ d ∈ front, d ≠ 0) (herr : err = none ∨ err = some none) :
    ∃ r, cl4_context_new env w (front.length + back.length + 1) (some (front ++ 0 :: back)) err
        = Except.ok r ∧
      r.ctx = none ∧ r.err = err ∧
      r.world.trace = w.trace
        ++ [Call.g_slice_new0_CL4Context,
            Call.g_slice_alloc0 ((front.length + back.length + 1) * env.sizeof_ptr)]
        ++ front.map Call.cl4_device_new ∧
      ∀ h, refCount r.world.device_wrappers h = refCount w.device_wrappers h + front.count h := by
  have hloop := cl4_context_new_devices_returned front [] back back.length
    (List.replicate (front.length + back.length + 1) none)
    ((w.emit Call.g_slice_new0_CL4Context).emit
      (Call.g_slice_alloc0 ((front.length + back.length + 1) * env.sizeof_ptr))) hnz
  simp only [List.nil_append, List.length_nil] at hloop
  unfold cl4_context_new
  rw [if_neg (Nat.succ_ne_zero _)]
  rcases herr with rfl | rfl <;>
  · simp only [hloop]
    refine ⟨_, rfl, rfl, rfl, ?_, ?_⟩
    · simp [wrapDevices_trace, World.emit]
    · intro h
      simp [wrapDevices_device_wrappers, World.emit, refCount_foldl_registryLookupOrCreate]

/-! ## The claims -/

/-- C1 (the code leaks): called with the two-element device list `[7, NULL]`,
`cl4_context_new` returns no object through the `g_return_val_if_fail` inside
its device loop, after `cl4_device_new` on device `7` and without any
`cl4_device_unref`: the reference count of the wrapper of device `7` has gone
from 0 to 1 and the registry memcheck, true before the call, is false after
it. -/
theorem cl4_context_new_null_device_leaks :
    cl4_context_new sampleEnv emptyWorld 2 (some [7, 0]) (some none)
        = Except.ok ⟨none, some none,
            ⟨[(7, 1)], [],
              [Call.g_slice_new0_CL4Context, Call.g_slice_alloc0 16, Call.cl4_device_new 7]⟩⟩
      ∧ refCount emptyWorld.device_wrappers 7 = 0
      ∧ refCount [(7, 1)] 7 = 1
      ∧ registryMemcheck emptyWorld.device_wrappers = true
      ∧ registryMemcheck [(7, 1)] = false :=
  ⟨rfl, rfl, rfl, rfl, rfl⟩

/-- C2 (counterexample): called with `num_devices == 0`, and called with
`devices == NULL`, on an unset error slot, `cl4_context_new` returns no object
and the error slot is still unset: no error is produced. -/
theorem cl4_context_new_invalid_args_error_unset :
    cl4_context_new sampleEnv emptyWorld 0 (some [7]) (some none)
        = Except.ok ⟨none, some none, emptyWorld⟩
      ∧ cl4_context_new sampleEnv emptyWorld 1 none (some none)
        = Except.ok ⟨none, some none, emptyWorld⟩ :=
  ⟨rfl, rfl⟩

/-- C2 (amended): for every call of `cl4_context_new` with `num_devices == 0`
or with `devices == NULL`, no object is returned, the error output is left as
the caller passed it, and the world is unchanged (nothing is created). -/
theorem cl4_context_new_invalid_args (env : Env) (w : World) (num_devices : cl_uint)
    (devices : Option (List cl_device_id)) (err : ErrPtr)
    (h : num_devices = 0 ∨ devices = none) :
    cl4_context_new env w num_devices devices err = Except.ok ⟨none, err, w⟩ := by
  unfold cl4_context_new
  rcases h with h | h
  · simp [h]
  · subst h
    by_cases hn : num_devices = 0 <;> simp [hn]

/-- C2 (witness): `num_devices == 0` with a null error output. -/
theorem cl4_context_new_invalid_args_witness :
    (0 = 0 ∨ (some [7] : Option (List cl_device_id)) = none)
      ∧ cl4_context_new sampleEnv emptyWorld 0 (some [7]) none
        = Except.ok ⟨none, none, emptyWorld⟩ :=
  ⟨Or.inl rfl, cl4_context_new_invalid_args sampleEnv emptyWorld 0 (some [7]) none (Or.inl rfl)⟩

/-- C3 (the code dereferences the missing result): when the platform query on
the first device returns `NULL` and sets its error, `cl4_context_new`
dereferences the `NULL` result before it looks at the error: the call ends in
a fault, no error reaches the caller and no wrapper is released. -/
theorem cl4_context_new_query_failure_null_deref :
    cl4_context_new failingQueryEnv emptyWorld 1 (some [7]) (some none)
      = Except.error Fault.null_deref :=
  rfl

/-- C4: given valid arguments (`n >= 1` non-NULL device handles, error output
null or unset) and a successful platform query delivering platform `p`,
`cl4_context_new` returns; it returns an object if and only if the status of
the native context creation is `CL_SUCCESS`; for every other status it returns
no object, an error output that was supplied holds an error afterwards, and
after the calls that built the context the trace holds exactly one
`cl4_device_unref` for each of the `n` device wrappers and one
`cl4_platform_unref` for the platform wrapper, so that every wrapper reference
count is what it was before the call. -/
theorem cl4_context_new_native_status (env : Env) (w : World) (n : cl_uint)
    (devs : List cl_device_id) (err : ErrPtr) (p : cl_platform_id)
    (hpos : 0 < n) (hlen : devs.length = n) (hnz : ∀ d ∈ devs, d ≠ 0)
    (herr : err = none ∨ err = some none)
    (hq : env.cl4_device_info_value (devs.head?.map CL4Device.mk) CL_DEVICE_PLATFORM
      = ⟨some p, none⟩) :
    ∃ r, cl4_context_new env w n (some devs) err = Except.ok r ∧
      (r.ctx.isSome = true ↔ (env.clCreateContext (ctxProps p) n devs).2 = CL_SUCCESS) ∧
      ((env.clCreateContext (ctxProps p) n devs).2 ≠ CL_SUCCESS →
        r.ctx = none ∧
        (err = some none → ∃ e, r.err = some (some e)) ∧
        (err = none → r.err = none) ∧
        r.world.trace = w.trace ++ buildCalls env devs p
          ++ devs.map (fun d => Call.cl4_device_unref (some ⟨d⟩))
          ++ [Call.g_slice_free1 (n * env.sizeof_ptr)]
          ++ (if (env.clCreateContext (ctxProps p) n devs).1 ≠ 0 then
                [Call.clReleaseContext (env.clCreateContext (ctxProps p) n devs).1]
              else [])
          ++ [Call.cl4_platform_unref (some ⟨p⟩), Call.g_slice_free_CL4Context] ∧
        (∀ h, refCount r.world.device_wrappers h = refCount w.device_wrappers h) ∧
        (∀ h, refCount r.world.platform_wrappers h = refCount w.platform_wrappers h)) := by
  subst hlen
  have hne : devs ≠ [] := by
    intro h; subst h; simp at hpos
  have hnew := cl4_context_new_valid env w devs err p hne hnz herr hq
  by_cases hst : (env.clCreateContext (ctxProps p) devs.length devs).2 = CL_SUCCESS
  · rw [if_pos hst] at hnew
    exact ⟨_, hnew, by simp [hst], fun h => absurd hst h⟩
  · rw [if_neg hst] at hnew
    refine ⟨_, hnew, by simp [hst], fun _ => ⟨rfl, ?_, ?_, ?_, ?_, ?_⟩⟩
    · intro he; subst he; exact ⟨_, rfl⟩
    · intro he; subst he; rfl
    · simp only [destroyedWorld, builtWorld, destroyCalls_builtContext]
      simp [List.append_assoc]
    · exact destroyedWorld_built_device_refCount env w devs p
    · exact destroyedWorld_built_platform_refCount env w devs p

/-- C4 (witness): two devices, native creation failing with status `-5`. -/
theorem cl4_context_new_native_status_witness :
    (0 < 2 ∧ ([7, 8] : List cl_device_id).length = 2 ∧ (∀ d ∈ ([7, 8] : List cl_device_id), d ≠ 0) ∧
      ((failingCreateEnv (-5)).cl4_device_info_value (([7, 8] : List cl_device_id).head?.map CL4Device.mk)
        CL_DEVICE_PLATFORM = ⟨some 5, none⟩)) ∧
    (∃ r, cl4_context_new (failingCreateEnv (-5)) emptyWorld 2 (some [7, 8]) (some none)
        = Except.ok r ∧
      (r.ctx.isSome = true ↔
        ((failingCreateEnv (-5)).clCreateContext (ctxProps 5) 2 [7, 8]).2 = CL_SUCCESS) ∧
      (((failingCreateEnv (-5)).clCreateContext (ctxProps 5) 2 [7, 8]).2 ≠ CL_SUCCESS →
        r.ctx = none ∧
        ((some none : ErrPtr) = some none → ∃ e, r.err = some (some e)) ∧
        ((some none : ErrPtr) = none → r.err = none) ∧
        r.world.trace = emptyWorld.trace ++ buildCalls (failingCreateEnv (-5)) [7, 8] 5
          ++ [7, 8].map (fun d => Call.cl4_device_unref (some ⟨d⟩))
          ++ [Call.g_slice_free1 (2 * (failingCreateEnv (-5)).sizeof_ptr)]
          ++ (if ((failingCreateEnv (-5)).clCreateContext (ctxProps 5) 2 [7, 8]).1 ≠ 0 then
                [Call.clReleaseContext
                  ((failingCreateEnv (-5)).clCreateContext (ctxProps 5) 2 [7, 8]).1]
              else [])
          ++ [Call.cl4_platform_unref (some ⟨5⟩), Call.g_slice_free_CL4Context] ∧
        (∀ h, refCount r.world.device_wrappers h = refCount emptyWorld.device_wrappers h) ∧
        (∀ h, refCount r.world.platform_wrappers h
          = refCount emptyWorld.platform_wrappers h))) :=
  ⟨⟨by decide, rfl, by decide, rfl⟩,
  cl4_context_new_native_status (failingCreateEnv (-5)) emptyWorld 2 [7, 8] (some none) 5
    (by decide) rfl (by decide) (Or.inr rfl) rfl⟩

/-- C5 (counterexample): native creation failing with status `-5` and with
status `-6` gives in both cases an error whose domain is `CL4_ERROR`, the
domain of this layer, and whose code is the constant `CL4_OCL_ERROR`: the code
is the same for both statuses and is not the status. -/
theorem cl4_context_new_create_error_not_status :
    ∃ r5 r6 e5 e6,
      cl4_context_new (failingCreateEnv (-5)) emptyWorld 1 (some [7]) (some none) = Except.ok r5
      ∧ cl4_context_new (failingCreateEnv (-6)) emptyWorld 1 (some [7]) (some none) = Except.ok r6
      ∧ r5.err = some (some e5) ∧ r6.err = some (some e6)
      ∧ e5.domain = (failingCreateEnv (-5)).CL4_ERROR
      ∧ e5.code = (failingCreateEnv (-5)).CL4_OCL_ERROR
      ∧ e5.code = e6.code
      ∧ e5.code ≠ -5 :=
  ⟨_, _, _, _, rfl, rfl, rfl, rfl, rfl, rfl, rfl, by decide⟩

/-- C5 (amended): when native context creation in `cl4_context_new` fails with
status `s != CL_SUCCESS` and an unset error output was supplied, the error
produced has the domain `CL4_ERROR` of this layer and the fixed code
`CL4_OCL_ERROR`; the status `s` and its description `cl4_err(s)` are carried by
the message. -/
theorem cl4_context_new_create_error (env : Env) (w : World) (n : cl_uint)
    (devs : List cl_device_id) (p : cl_platform_id) (s : cl_int)
    (hpos : 0 < n) (hlen : devs.length = n) (hnz : ∀ d ∈ devs, d ≠ 0)
    (hq : env.cl4_device_info_value (devs.head?.map CL4Device.mk) CL_DEVICE_PLATFORM
      = ⟨some p, none⟩)
    (hs : (env.clCreateContext (ctxProps p) n devs).2 = s) (hne : s ≠ CL_SUCCESS) :
    ∃ r e, cl4_context_new env w n (some devs) (some none) = Except.ok r ∧
      r.ctx = none ∧ r.err = some (some e) ∧
      e.domain = env.CL4_ERROR ∧ e.code = env.CL4_OCL_ERROR ∧
      ∃ front back, e.message = front ++ toString s ++ ": " ++ env.cl4_err s ++ back := by
  subst hlen
  have hnil : devs ≠ [] := by
    intro h; subst h; simp at hpos
  have hnew := cl4_context_new_valid env w devs (some none) p hnil hnz (Or.inr rfl) hq
  rw [hs, if_neg hne] at hnew
  exact ⟨_, _, hnew, rfl, rfl, rfl, rfl, _, _, rfl⟩

/-- C5 (witness): one device, native creation failing with status `-5`. -/
theorem cl4_context_new_create_error_witness :
    (0 < 1 ∧ ([7] : List cl_device_id).length = 1 ∧ (∀ d ∈ ([7] : List cl_device_id), d ≠ 0) ∧
      ((failingCreateEnv (-5)).cl4_device_info_value (([7] : List cl_device_id).head?.map CL4Device.mk)
        CL_DEVICE_PLATFORM = ⟨some 5, none⟩) ∧
      ((failingCreateEnv (-5)).clCreateContext (ctxProps 5) 1 [7]).2 = -5 ∧ (-5 : cl_int) ≠ CL_SUCCESS) ∧
    (∃ r e, cl4_context_new (failingCreateEnv (-5)) emptyWorld 1 (some [7]) (some none)
        = Except.ok r ∧
      r.ctx = none ∧ r.err = some (some e) ∧
      e.domain = (failingCreateEnv (-5)).CL4_ERROR ∧
      e.code = (failingCreateEnv (-5)).CL4_OCL_ERROR ∧
      ∃ front back, e.message
        = front ++ toString (-5 : cl_int) ++ ": " ++ (failingCreateEnv (-5)).cl4_err (-5) ++ back) :=
  ⟨⟨by decide, rfl, by decide, rfl, rfl, by decide⟩,
  cl4_context_new_create_error (failingCreateEnv (-5)) emptyWorld 1 [7] 5 (-5)
    (by decide) rfl (by decide) rfl rfl (by decide)⟩

/-- C6: for every call of `cl4_context_new` whose error output is non-null and
already holds an error, the function returns no object, leaves the error as it
is and leaves the world unchanged (no wrapper, no native context, no call). -/
theorem cl4_context_new_error_already_set (env : Env) (w : World) (num_devices : cl_uint)
    (devices : Option (List cl_device_id)) (e : GError) :
    cl4_context_new env w num_devices devices (some (some e))
      = Except.ok ⟨none, some (some e), w⟩ := by
  unfold cl4_context_new
  by_cases hn : num_devices = 0
  · simp [hn]
  · cases devices <;> simp [hn]

/-- C7: for every `n >= 1` and every list of `n` non-NULL device handles, with
the error output null or unset, a platform query on the first device that
delivers platform `p` and a native creation with status `CL_SUCCESS`,
`cl4_context_new` returns a context with `num_devices == n`, whose device
array has length `n` and holds at index `i` the wrapper of `devices[i]`, whose
platform wrapper wraps `p` and whose native context is the one returned by
`clCreateContext`; the last call made is that `clCreateContext`, with the
properties `CL_CONTEXT_PLATFORM, p, 0`, the count `n` and the device list. -/
theorem cl4_context_new_success (env : Env) (w : World) (n : cl_uint)
    (devs : List cl_device_id) (err : ErrPtr) (p : cl_platform_id)
    (hpos : 0 < n) (hlen : devs.length = n) (hnz : ∀ d ∈ devs, d ≠ 0)
    (herr : err = none ∨ err = some none)
    (hq : env.cl4_device_info_value (devs.head?.map CL4Device.mk) CL_DEVICE_PLATFORM
      = ⟨some p, none⟩)
    (hst : (env.clCreateContext (ctxProps p) n devs).2 = CL_SUCCESS) :
    ∃ c w1, cl4_context_new env w n (some devs) err = Except.ok ⟨some c, err, w1⟩ ∧
      c.num_devices = n ∧ c.devices.length = n ∧
      (∀ (i : Nat) (d : cl_device_id), devs[i]? = some d →
        c.devices[i]? = some (some (CL4Device.mk d))) ∧
      c.platform = some ⟨p⟩ ∧
      c.context = (env.clCreateContext [CL_CONTEXT_PLATFORM, (p : Int), 0] n devs).1 ∧
      w1.trace.getLast? = some (Call.clCreateContext [CL_CONTEXT_PLATFORM, (p : Int), 0] n devs) := by
  subst hlen
  have hnil : devs ≠ [] := by
    intro h; subst h; simp at hpos
  have hnew := cl4_context_new_valid env w devs err p hnil hnz herr hq
  rw [if_pos hst] at hnew
  refine ⟨_, _, hnew, rfl, by simp [builtContext, wrappersOf], ?_, rfl, rfl, ?_⟩
  · intro i d hi
    simp [builtContext, wrappersOf, List.getElem?_map, hi]
  · have hcalls : w.trace ++ buildCalls env devs p
        = (w.trace ++ ([Call.g_slice_new0_CL4Context,
              Call.g_slice_alloc0 (devs.length * env.sizeof_ptr)]
            ++ devs.map Call.cl4_device_new
            ++ [Call.cl4_device_info_value (devs.head?.map CL4Device.mk) CL_DEVICE_PLATFORM,
                Call.cl4_platform_new p]))
          ++ [Call.clCreateContext [CL_CONTEXT_PLATFORM, (p : Int), 0] devs.length devs] := by
      simp [buildCalls, ctxProps]
    show (w.trace ++ buildCalls env devs p).getLast? = _
    rw [hcalls, List.getLast?_concat]

/-- C7 (witness): the device list `[7, 8]`. -/
theorem cl4_context_new_success_witness :
    (0 < 2 ∧ ([7, 8] : List cl_device_id).length = 2 ∧ (∀ d ∈ ([7, 8] : List cl_device_id), d ≠ 0) ∧
      (sampleEnv.cl4_device_info_value (([7, 8] : List cl_device_id).head?.map CL4Device.mk)
        CL_DEVICE_PLATFORM = ⟨some 5, none⟩) ∧
      (sampleEnv.clCreateContext (ctxProps 5) 2 [7, 8]).2 = CL_SUCCESS) ∧
    (∃ c w1, cl4_context_new sampleEnv emptyWorld 2 (some [7, 8]) (some none)
        = Except.ok ⟨some c, some none, w1⟩ ∧
      c.num_devices = 2 ∧ c.devices.length = 2 ∧
      (∀ (i : Nat) (d : cl_device_id), ([7, 8] : List cl_device_id)[i]? = some d →
        c.devices[i]? = some (some (CL4Device.mk d))) ∧
      c.platform = some ⟨5⟩ ∧
      c.context = (sampleEnv.clCreateContext [CL_CONTEXT_PLATFORM, ((5 : Nat) : Int), 0] 2 [7, 8]).1 ∧
      w1.trace.getLast?
        = some (Call.clCreateContext [CL_CONTEXT_PLATFORM, ((5 : Nat) : Int), 0] 2 [7, 8])) :=
  ⟨⟨by decide, rfl, by decide, rfl, rfl⟩,
  cl4_context_new_success sampleEnv emptyWorld 2 [7, 8] (some none) 5
    (by decide) rfl (by decide) (Or.inr rfl) rfl rfl⟩

/-- C8: for every list of `n >= 1` non-NULL device handles (a handle may occur
more than once) on which `cl4_context_new` succeeds (error output null or
unset, platform query delivering `p`, native creation returning a non-NULL
context with `CL_SUCCESS`), the constructor makes one `cl4_device_new` per
list element and one `cl4_platform_new`, and the following
`cl4_context_destroy` returns after exactly one `cl4_device_unref` per list
element, one `clReleaseContext` and one `cl4_platform_unref`; every device and
platform wrapper reference count is then what it was before the construction,
and a registry whose memcheck held before the construction passes it again. -/
theorem cl4_context_new_destroy_balanced (env : Env) (w : World) (n : cl_uint)
    (devs : List cl_device_id) (err : ErrPtr) (p : cl_platform_id)
    (hpos : 0 < n) (hlen : devs.length = n) (hnz : ∀ d ∈ devs, d ≠ 0)
    (herr : err = none ∨ err = some none)
    (hq : env.cl4_device_info_value (devs.head?.map CL4Device.mk) CL_DEVICE_PLATFORM
      = ⟨some p, none⟩)
    (hst : (env.clCreateContext (ctxProps p) n devs).2 = CL_SUCCESS)
    (hctx : (env.clCreateContext (ctxProps p) n devs).1 ≠ 0) :
    ∃ c w1 w2, cl4_context_new env w n (some devs) err = Except.ok ⟨some c, err, w1⟩ ∧
      cl4_context_destroy env w1 (some c) = Except.ok w2 ∧
      w1.trace = w.trace
        ++ [Call.g_slice_new0_CL4Context, Call.g_slice_alloc0 (n * env.sizeof_ptr)]
        ++ devs.map Call.cl4_device_new
        ++ [Call.cl4_device_info_value (devs.head?.map CL4Device.mk) CL_DEVICE_PLATFORM,
            Call.cl4_platform_new p,
            Call.clCreateContext (ctxProps p) n devs] ∧
      w2.trace = w1.trace
        ++ devs.map (fun d => Call.cl4_device_unref (some ⟨d⟩))
        ++ [Call.g_slice_free1 (n * env.sizeof_ptr),
            Call.clReleaseContext (env.clCreateContext (ctxProps p) n devs).1,
            Call.cl4_platform_unref (some ⟨p⟩),
            Call.g_slice_free_CL4Context] ∧
      (∀ h, refCount w2.device_wrappers h = refCount w.device_wrappers h) ∧
      (∀ h, refCount w2.platform_wrappers h = refCount w.platform_wrappers h) ∧
      (registryMemcheck w.device_wrappers = true → registryMemcheck w2.device_wrappers = true) ∧
      (registryMemcheck w.platform_wrappers = true →
        registryMemcheck w2.platform_wrappers = true) := by
  subst hlen
  have hnil : devs ≠ [] := by
    intro h; subst h; simp at hpos
  have hnew := cl4_context_new_valid env w devs err p hnil hnz herr hq
  rw [if_pos hst] at hnew
  have hdestroy := cl4_context_destroy_some env (builtWorld env w devs p)
    (builtContext env devs p) (by simp [builtContext, wrappersOf])
  refine ⟨_, _, _, hnew, hdestroy, ?_, ?_, ?_, ?_, ?_, ?_⟩
  · simp [builtWorld, buildCalls]
  · simp only [destroyedWorld, destroyCalls_builtContext, if_pos hctx]
    simp [List.append_assoc]
  · exact destroyedWorld_built_device_refCount env w devs p
  · exact destroyedWorld_built_platform_refCount env w devs p
  · intro hm
    rw [registryMemcheck_iff] at hm ⊢
    simp only [destroyedWorld, builtContext, unrefDevices_wrappersOf_device_wrappers, builtWorld,
      hm]
    exact wrap_unref_nil devs
  · intro hm
    rw [registryMemcheck_iff] at hm ⊢
    simp [destroyedWorld, builtContext, builtWorld, hm, registryLookupOrCreate, wrapperUnref,
      registryRemove]

/-- C8 (witness): the device list `[7, 7]`, the same handle twice. -/
theorem cl4_context_new_destroy_balanced_witness :
    (0 < 2 ∧ ([7, 7] : List cl_device_id).length = 2 ∧ (∀ d ∈ ([7, 7] : List cl_device_id), d ≠ 0) ∧
      (sampleEnv.cl4_device_info_value (([7, 7] : List cl_device_id).head?.map CL4Device.mk)
        CL_DEVICE_PLATFORM = ⟨some 5, none⟩) ∧
      (sampleEnv.clCreateContext (ctxProps 5) 2 [7, 7]).2 = CL_SUCCESS ∧
      (sampleEnv.clCreateContext (ctxProps 5) 2 [7, 7]).1 ≠ 0) ∧
    (∃ c w1 w2, cl4_context_new sampleEnv emptyWorld 2 (some [7, 7]) (some none)
        = Except.ok ⟨some c, some none, w1⟩ ∧
      cl4_context_destroy sampleEnv w1 (some c) = Except.ok w2 ∧
      w1.trace = emptyWorld.trace
        ++ [Call.g_slice_new0_CL4Context, Call.g_slice_alloc0 (2 * sampleEnv.sizeof_ptr)]
        ++ [7, 7].map Call.cl4_device_new
        ++ [Call.cl4_device_info_value (([7, 7] : List cl_device_id).head?.map CL4Device.mk)
              CL_DEVICE_PLATFORM,
            Call.cl4_platform_new 5,
            Call.clCreateContext (ctxProps 5) 2 [7, 7]] ∧
      w2.trace = w1.trace
        ++ [7, 7].map (fun d => Call.cl4_device_unref (some ⟨d⟩))
        ++ [Call.g_slice_free1 (2 * sampleEnv.sizeof_ptr),
            Call.clReleaseContext (sampleEnv.clCreateContext (ctxProps 5) 2 [7, 7]).1,
            Call.cl4_platform_unref (some ⟨5⟩),
            Call.g_slice_free_CL4Context] ∧
      (∀ h, refCount w2.device_wrappers h = refCount emptyWorld.device_wrappers h) ∧
      (∀ h, refCount w2.platform_wrappers h = refCount emptyWorld.platform_wrappers h) ∧
      (registryMemcheck emptyWorld.device_wrappers = true →
        registryMemcheck w2.device_wrappers = true) ∧
      (registryMemcheck emptyWorld.platform_wrappers = true →
        registryMemcheck w2.platform_wrappers = true)) :=
  ⟨⟨by decide, rfl, by decide, rfl, rfl, by decide⟩,
  cl4_context_new_destroy_balanced sampleEnv emptyWorld 2 [7, 7] (some none) 5
    (by decide) rfl (by decide) (Or.inr rfl) rfl rfl (by decide)⟩

/-- C9 (counterexample): destroying a context with device wrapper `7`, native
context `9` and platform wrapper `5` makes its calls in this order: the device
unref, the release of the device array, `clReleaseContext`, and only then
`cl4_platform_unref`. The platform wrapper reference is released after the
native context. -/
theorem cl4_context_destroy_platform_after_native :
    ∃ w1, cl4_context_destroy sampleEnv ⟨[(7, 1)], [(5, 1)], []⟩
        (some ⟨some ⟨5⟩, 9, 1, [some ⟨7⟩]⟩) = Except.ok w1 ∧
      w1.trace = [Call.cl4_device_unref (some ⟨7⟩), Call.g_slice_free1 8,
        Call.clReleaseContext 9, Call.cl4_platform_unref (some ⟨5⟩),
        Call.g_slice_free_CL4Context] ∧
      w1.trace.indexOf (Call.clReleaseContext 9)
        < w1.trace.indexOf (Call.cl4_platform_unref (some ⟨5⟩)) :=
  ⟨_, rfl, rfl, by decide⟩

/-- C9 (amended): `cl4_context_destroy` of a context whose device array has
`num_devices` slots, with a native context and a platform wrapper, releases
every device wrapper reference (and the device array) before it releases the
native context handle, and releases the platform wrapper reference after the
native context handle. -/
theorem cl4_context_destroy_order (env : Env) (w : World) (c : CL4Context) (p : CL4Platform)
    (hlen : c.devices.length = c.num_devices) (hctx : c.context ≠ 0)
    (hplat : c.platform = some p) :
    ∃ w1, cl4_context_destroy env w (some c) = Except.ok w1 ∧
      w1.trace = w.trace
        ++ c.devices.map Call.cl4_device_unref
        ++ [Call.g_slice_free1 (c.num_devices * env.sizeof_ptr),
            Call.clReleaseContext c.context,
            Call.cl4_platform_unref (some p),
            Call.g_slice_free_CL4Context] := by
  refine ⟨_, cl4_context_destroy_some env w c hlen, ?_⟩
  simp [destroyedWorld, destroyCalls, hctx, hplat]

/-- C9 (witness): a context with two device wrappers. -/
theorem cl4_context_destroy_order_witness :
    (([some (CL4Device.mk 7), some (CL4Device.mk 8)] : List (Option CL4Device)).length = 2 ∧ (9 : cl_context) ≠ 0) ∧
    (∃ w1, cl4_context_destroy sampleEnv ⟨[(7, 1), (8, 1)], [(5, 1)], []⟩
        (some ⟨some ⟨5⟩, 9, 2, [some ⟨7⟩, some ⟨8⟩]⟩) = Except.ok w1 ∧
      w1.trace = ([] : List Call)
        ++ [some (CL4Device.mk 7), some (CL4Device.mk 8)].map Call.cl4_device_unref
        ++ [Call.g_slice_free1 (2 * sampleEnv.sizeof_ptr),
            Call.clReleaseContext 9,
            Call.cl4_platform_unref (some ⟨5⟩),
            Call.g_slice_free_CL4Context]) :=
  ⟨⟨rfl, by decide⟩,
  cl4_context_destroy_order sampleEnv ⟨[(7, 1), (8, 1)], [(5, 1)], []⟩
    ⟨some ⟨5⟩, 9, 2, [some ⟨7⟩, some ⟨8⟩]⟩ ⟨5⟩ rfl (by decide) rfl⟩

/-- C10: `cl4_context_destroy(NULL)` returns with the world unchanged: no
wrapper is unref-ed, no native context released, no memory freed. -/
theorem cl4_context_destroy_null (env : Env) (w : World) :
    cl4_context_destroy env w none = Except.ok w :=
  rfl

/-! ## The control points of `cl4_context_new`: lemmas and claims -/

/-- The device loop on a list that goes on after the handles it reads. -/
theorem cl4_context_new_devices_done_append (post : List cl_device_id) :
    ∀ (pre extra : List cl_device_id) (slots : List (Option CL4Device)) (w : World),
      (∀ d ∈ post, d ≠ 0) → slots.length = pre.length + post.length →
      cl4_context_new_devices (pre ++ post ++ extra) post.length pre.length slots w =
        LoopExit.done (slots.take pre.length ++ wrappersOf post) (wrapDevices w post) := by
  induction post with
  | nil =>
    intro pre extra slots w _ hlen
    simp [cl4_context_new_devices, wrappersOf, wrapDevices, List.take_of_length_le, hlen]
  | cons d ps ih =>
    intro pre extra slots w hnz hlen
    have hd : d ≠ 0 := hnz d (List.mem_cons_self _ _)
    have hps : ∀ e ∈ ps, e ≠ 0 := fun e he => hnz e (List.mem_cons_of_mem _ he)
    have hget : (pre ++ d :: (ps ++ extra))[pre.length]? = some d := by
      rw [List.getElem?_append_right (Nat.le_refl _)]; simp
    have hlt : pre.length < slots.length := by simp at hlen; omega
    have step := ih (pre ++ [d]) extra (slots.set pre.length (some ⟨d⟩)) (cl4_device_new w d).2 hps
      (by simp at hlen ⊢; omega)
    have htake : (slots.set pre.length (some (CL4Device.mk d))).take (pre.length + 1)
        = slots.take pre.length ++ [some (CL4Device.mk d)] := by
      rw [List.take_succ, List.set_take, List.set_eq_of_length_le (by simp)]
      simp [List.getElem?_set, hlt]
    simp only [List.append_assoc, List.singleton_append, List.length_append,
      List.length_singleton, List.cons_append, List.nil_append] at step
    have hfst : (cl4_device_new w d).1 = CL4Device.mk d := rfl
    rw [List.length_cons, cl4_context_new_devices]
    simp only [List.append_assoc, List.cons_append, hget, hd, if_false, hfst]
    rw [step, htake]
    simp [wrappersOf, wrapDevices]

/-- The device loop faults only by reading past the end of the device list. -/
theorem cl4_context_new_devices_fault (devs : List cl_device_id) (k : Nat) :
    ∀ (i : Nat) (slots : List (Option CL4Device)) (w : World) (f : Fault),
      cl4_context_new_devices devs k i slots w = LoopExit.fault f → f = Fault.out_of_bounds := by
  induction k with
  | zero => intro i slots w f h; simp [cl4_context_new_devices] at h
  | succ k ih =>
    intro i slots w f h
    rw [cl4_context_new_devices] at h
    cases hd : devs[i]? with
    | none => simp only [hd] at h; injection h with h; exact h.symm
    | some d =>
      simp only [hd] at h
      by_cases hz : d = 0
      · simp [hz] at h
      · simp only [hz, if_false] at h
        exact ih _ _ _ _ h

/-- When the device loop runs to its end, the handles it read are in the list
and none of them is `NULL`. -/
theorem cl4_context_new_devices_done_inv (devs : List cl_device_id) (k : Nat) :
    ∀ (i : Nat) (slots slots1 : List (Option CL4Device)) (w w1 : World),
      cl4_context_new_devices devs k i slots w = LoopExit.done slots1 w1 →
      i ≤ devs.length →
      i + k ≤ devs.length ∧ ∀ d ∈ (devs.drop i).take k, d ≠ 0 := by
  induction k with
  | zero => intro i slots slots1 w w1 h hi; simpa using hi
  | succ k ih =>
    intro i slots slots1 w w1 h hi
    rw [cl4_context_new_devices] at h
    cases hd : devs[i]? with
    | none => simp [hd] at h
    | some d =>
      simp only [hd] at h
      by_cases hz : d = 0
      · simp [hz] at h
      · simp only [hz, if_false] at h
        obtain ⟨hlt, hget⟩ := List.getElem?_eq_some_iff.mp hd
        obtain ⟨hle, hall⟩ := ih _ _ _ _ _ h hlt
        refine ⟨by omega, ?_⟩
        rw [List.drop_eq_getElem_cons hlt, List.take_succ_cons, hget]
        intro e he
        rcases List.mem_cons.mp he with he | he
        · rw [he]; exact hz
        · exact hall e he

/-- The device loop of `cl4_context_new`, when it runs to its end from index 0
on a zero-initialised array of `n` slots, has read the first `n` handles of the
list, none of them `NULL`, filled every slot with the wrapper of its handle and
made one `cl4_device_new` call per handle. -/
theorem cl4_context_new_devices_done_eq (devs : List cl_device_id) (n : Nat)
    (slots1 : List (Option CL4Device)) (w w1 : World)
    (h : cl4_context_new_devices devs n 0 (List.replicate n none) w = LoopExit.done slots1 w1) :
    n ≤ devs.length ∧ (∀ d ∈ devs.take n, d ≠ 0) ∧
      slots1 = wrappersOf (devs.take n) ∧ w1 = wrapDevices w (devs.take n) := by
  obtain ⟨hle, hall⟩ := cl4_context_new_devices_done_inv devs n 0 _ _ _ _ h (Nat.zero_le _)
  simp only [Nat.zero_add, List.drop_zero] at hle hall
  have hlen : (devs.take n).length = n := by simp [hle]
  have hclosed := cl4_context_new_devices_done_append (devs.take n) [] (devs.drop n)
    (List.replicate n none) w hall (by simp [hle])
  simp only [List.nil_append, List.length_nil, List.take_zero, List.take_append_drop, hlen]
    at hclosed
  rw [hclosed] at h
  injection h with h1 h2
  exact ⟨hle, hall, h1.symm, h2.symm⟩

/-- The loop of `cl4_context_destroy` faults only by reading past the end of
the device array. -/
theorem cl4_context_destroy_devices_fault (slots : List (Option CL4Device)) (k : Nat) :
    ∀ (i : Nat) (w : World) (f : Fault),
      cl4_context_destroy_devices slots k i w = Except.error f → f = Fault.out_of_bounds := by
  induction k with
  | zero => intro i w f h; simp [cl4_context_destroy_devices] at h
  | succ k ih =>
    intro i w f h
    rw [cl4_context_destroy_devices] at h
    cases hd : slots[i]? with
    | none => simp only [hd] at h; injection h with h; exact h.symm
    | some d => simp only [hd] at h; exact ih _ _ _ h

/-- Function `cl4_context_new` is its body up to the control points followed by
what it does from the control point on. -/
theorem cl4_context_new_eq_complete (env : Env) (w : World) (num_devices : cl_uint)
    (devices : Option (List cl_device_id)) (err : ErrPtr) :
    cl4_context_new env w num_devices devices err
      = (cl4_context_new_flow env w num_devices devices err).complete env := by
  unfold cl4_context_new cl4_context_new_flow
  by_cases hn : num_devices = 0
  · simp [hn, Flow.complete]
  · rw [if_neg hn, if_neg hn]
    cases devices with
    | none => rfl
    | some devs =>
      rcases err with _ | _ | e
      · simp only []
        cases cl4_context_new_devices devs num_devices 0 (List.replicate num_devices none)
          ((w.emit Call.g_slice_new0_CL4Context).emit
            (Call.g_slice_alloc0 (num_devices * env.sizeof_ptr))) with
        | fault f => rfl
        | returned w1 => rfl
        | done slots w1 =>
          simp only []
          cases slots[0]? with
          | none => rfl
          | some dev0 =>
            simp only []
            cases (env.cl4_device_info_value dev0 CL_DEVICE_PLATFORM).value with
            | none => rfl
            | some platform =>
              simp only []
              cases (env.cl4_device_info_value dev0 CL_DEVICE_PLATFORM).err with
              | some e => rfl
              | none =>
                simp only [ccl_if_err_propagate_goto, ccl_if_err_create_goto]
                split <;> rfl
      · simp only []
        cases cl4_context_new_devices devs num_devices 0 (List.replicate num_devices none)
          ((w.emit Call.g_slice_new0_CL4Context).emit
            (Call.g_slice_alloc0 (num_devices * env.sizeof_ptr))) with
        | fault f => rfl
        | returned w1 => rfl
        | done slots w1 =>
          simp only []
          cases slots[0]? with
          | none => rfl
          | some dev0 =>
            simp only []
            cases (env.cl4_device_info_value dev0 CL_DEVICE_PLATFORM).value with
            | none => rfl
            | some platform =>
              simp only []
              cases (env.cl4_device_info_value dev0 CL_DEVICE_PLATFORM).err with
              | some e => rfl
              | none =>
                simp only [ccl_if_err_propagate_goto, ccl_if_err_create_goto]
                split <;> rfl
      · rfl

/-- The runs of the body of `cl4_context_new` that reach a control point with a
context: the arguments passed the three guards, the device loop ran to its end
over the first `num_devices` handles, the platform query returned a pointer to
a platform `p`, and then either the query had set its error (jump to
`error_handler` with the platform and native context fields still `NULL`), or
native creation failed (jump to `error_handler` with both fields set), or
native creation succeeded (success point). -/
theorem cl4_context_new_flow_inv (env : Env) (w : World) (n : cl_uint)
    (devices : Option (List cl_device_id)) (err : ErrPtr) (fl : Flow)
    (h : cl4_context_new_flow env w n devices err = fl)
    (hfl : (∃ c e w1, fl = Flow.error_handler c e w1) ∨ (∃ c e w1, fl = Flow.finish c e w1)) :
    ∃ devs p, devices = some devs ∧ n ≠ 0 ∧ (err = none ∨ err = some none) ∧
      n ≤ devs.length ∧ (∀ d ∈ devs.take n, d ≠ 0) ∧
      (env.cl4_device_info_value ((devs.take n).head?.map CL4Device.mk) CL_DEVICE_PLATFORM).value
        = some p ∧
      ((∃ e0,
          (env.cl4_device_info_value ((devs.take n).head?.map CL4Device.mk)
            CL_DEVICE_PLATFORM).err = some e0 ∧
          fl = Flow.error_handler ⟨none, 0, n, wrappersOf (devs.take n)⟩
            (g_propagate_error err e0)
            ((wrapDevices ((w.emit Call.g_slice_new0_CL4Context).emit
                (Call.g_slice_alloc0 (n * env.sizeof_ptr))) (devs.take n)).emit
              (Call.cl4_device_info_value ((devs.take n).head?.map CL4Device.mk)
                CL_DEVICE_PLATFORM))) ∨
        ((env.cl4_device_info_value ((devs.take n).head?.map CL4Device.mk)
            CL_DEVICE_PLATFORM).err = none ∧
          (env.clCreateContext (ctxProps p) n devs).2 ≠ CL_SUCCESS ∧
          fl = Flow.error_handler
            ⟨some ⟨p⟩, (env.clCreateContext (ctxProps p) n devs).1, n, wrappersOf (devs.take n)⟩
            (g_set_error err env.CL4_ERROR env.CL4_OCL_ERROR
              (cl4_context_new_message env (env.clCreateContext (ctxProps p) n devs).2))
            ((cl4_platform_new ((wrapDevices ((w.emit Call.g_slice_new0_CL4Context).emit
                (Call.g_slice_alloc0 (n * env.sizeof_ptr))) (devs.take n)).emit
              (Call.cl4_device_info_value ((devs.take n).head?.map CL4Device.mk)
                CL_DEVICE_PLATFORM)) p).2.emit
              (Call.clCreateContext (ctxProps p) n devs))) ∨
        ((env.cl4_device_info_value ((devs.take n).head?.map CL4Device.mk)
            CL_DEVICE_PLATFORM).err = none ∧
          (env.clCreateContext (ctxProps p) n devs).2 = CL_SUCCESS ∧
          fl = Flow.finish
            ⟨some ⟨p⟩, (env.clCreateContext (ctxProps p) n devs).1, n, wrappersOf (devs.take n)⟩
            err
            ((cl4_platform_new ((wrapDevices ((w.emit Call.g_slice_new0_CL4Context).emit
                (Call.g_slice_alloc0 (n * env.sizeof_ptr))) (devs.take n)).emit
              (Call.cl4_device_info_value ((devs.take n).head?.map CL4Device.mk)
                CL_DEVICE_PLATFORM)) p).2.emit
              (Call.clCreateContext (ctxProps p) n devs)))) := by
  have hno : ∀ (e : ErrPtr) (v : World), fl ≠ Flow.returned e v := by
    intro e v hh; rcases hfl with ⟨c, e1, w1, h1⟩ | ⟨c, e1, w1, h1⟩ <;> rw [h1] at hh <;> cases hh
  have hnof : ∀ (f : Fault), fl ≠ Flow.fault f := by
    intro f hh; rcases hfl with ⟨c, e1, w1, h1⟩ | ⟨c, e1, w1, h1⟩ <;> rw [h1] at hh <;> cases hh
  unfold cl4_context_new_flow at h
  by_cases hn : n = 0
  · rw [if_pos hn] at h; exact absurd h.symm (hno _ _)
  · rw [if_neg hn] at h
    cases devices with
    | none => exact absurd h.symm (hno _ _)
    | some devs =>
      have herr : err = none ∨ err = some none := by
        rcases err with _ | _ | e
        · exact Or.inl rfl
        · exact Or.inr rfl
        · exact absurd h.symm (hno _ _)
      have h2 : (match cl4_context_new_devices devs n 0 (List.replicate n none)
              ((w.emit Call.g_slice_new0_CL4Context).emit
                (Call.g_slice_alloc0 (n * env.sizeof_ptr))) with
            | LoopExit.fault f => Flow.fault f
            | LoopExit.returned w1 => Flow.returned err w1
            | LoopExit.done slots w1 =>
              match slots[0]? with
              | none => Flow.fault Fault.out_of_bounds
              | some dev0 =>
                match (env.cl4_device_info_value dev0 CL_DEVICE_PLATFORM).value with
                | none => Flow.fault Fault.null_deref
                | some platform =>
                  match ccl_if_err_propagate_goto err
                      (env.cl4_device_info_value dev0 CL_DEVICE_PLATFORM).err with
                  | (err1, true) => Flow.error_handler ⟨none, 0, n, slots⟩ err1
                      (w1.emit (Call.cl4_device_info_value dev0 CL_DEVICE_PLATFORM))
                  | (err1, false) =>
                    match ccl_if_err_create_goto err1 env.CL4_ERROR
                        (decide (CL_SUCCESS ≠ (env.clCreateContext
                          [CL_CONTEXT_PLATFORM, (platform : Int), 0] n devs).2))
                        env.CL4_OCL_ERROR
                        (cl4_context_new_message env (env.clCreateContext
                          [CL_CONTEXT_PLATFORM, (platform : Int), 0] n devs).2) with
                    | (err2, true) => Flow.error_handler
                        ⟨some (cl4_platform_new (w1.emit
                            (Call.cl4_device_info_value dev0 CL_DEVICE_PLATFORM)) platform).1,
                          (env.clCreateContext [CL_CONTEXT_PLATFORM, (platform : Int), 0] n devs).1,
                          n, slots⟩ err2
                        ((cl4_platform_new (w1.emit
                            (Call.cl4_device_info_value dev0 CL_DEVICE_PLATFORM)) platform).2.emit
                          (Call.clCreateContext [CL_CONTEXT_PLATFORM, (platform : Int), 0] n devs))
                    | (err2, false) => Flow.finish
                        ⟨some (cl4_platform_new (w1.emit
                            (Call.cl4_device_info_value dev0 CL_DEVICE_PLATFORM)) platform).1,
                          (env.clCreateContext [CL_CONTEXT_PLATFORM, (platform : Int), 0] n devs).1,
                          n, slots⟩ err2
                        ((cl4_platform_new (w1.emit
                            (Call.cl4_device_info_value dev0 CL_DEVICE_PLATFORM)) platform).2.emit
                          (Call.clCreateContext [CL_CONTEXT_PLATFORM, (platform : Int), 0] n devs)))
            = fl := by
        rcases herr with rfl | rfl <;> exact h
      clear h
      rename' h2 => h
      cases hl : cl4_context_new_devices devs n 0 (List.replicate n none)
        ((w.emit Call.g_slice_new0_CL4Context).emit
          (Call.g_slice_alloc0 (n * env.sizeof_ptr))) with
      | fault f => rw [hl] at h; exact absurd h.symm (hnof _)
      | returned v => rw [hl] at h; exact absurd h.symm (hno _ _)
      | done slots v =>
        rw [hl] at h
        obtain ⟨hle, hall, hslots, hv⟩ := cl4_context_new_devices_done_eq devs n slots _ v hl
        subst hslots hv
        have hhead : (wrappersOf (List.take n devs))[0]?
            = some ((devs.take n).head?.map CL4Device.mk) := by
          cases hd : devs.take n with
          | nil =>
            have : (devs.take n).length = n := by simp [hle]
            rw [hd] at this; exact absurd this.symm hn
          | cons d ds => simp [wrappersOf]
        simp only [hhead] at h
        cases hval : (env.cl4_device_info_value ((devs.take n).head?.map CL4Device.mk)
            CL_DEVICE_PLATFORM).value with
        | none => rw [hval] at h; exact absurd h.symm (hnof _)
        | some p =>
          rw [hval] at h
          refine ⟨devs, p, rfl, hn, herr, hle, hall, hval, ?_⟩
          cases hqe : (env.cl4_device_info_value ((devs.take n).head?.map CL4Device.mk)
              CL_DEVICE_PLATFORM).err with
          | some e0 =>
            rw [hqe] at h
            exact Or.inl ⟨e0, rfl, h.symm⟩
          | none =>
            rw [hqe] at h
            by_cases hst : (env.clCreateContext (ctxProps p) n devs).2 = CL_SUCCESS
            · have hst2 : ¬ CL_SUCCESS ≠ (env.clCreateContext
                  [CL_CONTEXT_PLATFORM, (p : Int), 0] n devs).2 := fun hh => hh hst.symm
              simp only [ccl_if_err_propagate_goto, ccl_if_err_create_goto,
                decide_eq_false hst2, Bool.false_eq_true, if_false] at h
              exact Or.inr (Or.inr ⟨rfl, hst, h.symm⟩)
            · have hst2 : CL_SUCCESS ≠ (env.clCreateContext
                  [CL_CONTEXT_PLATFORM, (p : Int), 0] n devs).2 := fun hh => hst hh.symm
              simp only [ccl_if_err_propagate_goto, ccl_if_err_create_goto,
                decide_eq_true hst2, if_true] at h
              exact Or.inr (Or.inl ⟨rfl, hst, h.symm⟩)

/-- The body of `cl4_context_new` faults only by reading past the end of the
device list or by dereferencing the `NULL` result of the platform query. -/
theorem cl4_context_new_flow_fault (env : Env) (w : World) (n : cl_uint)
    (devices : Option (List cl_device_id)) (err : ErrPtr) (f : Fault)
    (h : cl4_context_new_flow env w n devices err = Flow.fault f) :
    f = Fault.out_of_bounds ∨ f = Fault.null_deref := by
  unfold cl4_context_new_flow at h
  by_cases hn : n = 0
  · rw [if_pos hn] at h; cases h
  · rw [if_neg hn] at h
    cases devices with
    | none => cases h
    | some devs =>
      rcases err with _ | _ | e
      · simp only [] at h
        cases hl : cl4_context_new_devices devs n 0 (List.replicate n none)
          ((w.emit Call.g_slice_new0_CL4Context).emit
            (Call.g_slice_alloc0 (n * env.sizeof_ptr))) with
        | fault g =>
          rw [hl] at h; injection h with h; subst h
          exact Or.inl (cl4_context_new_devices_fault _ _ _ _ _ _ hl)
        | returned v => rw [hl] at h; cases h
        | done slots v =>
          rw [hl] at h
          simp only [] at h
          split at h
          · injection h with h; exact Or.inl h.symm
          · split at h
            · injection h with h; exact Or.inr h.symm
            · split at h
              · cases h
              · split at h <;> cases h
      · simp only [] at h
        cases hl : cl4_context_new_devices devs n 0 (List.replicate n none)
          ((w.emit Call.g_slice_new0_CL4Context).emit
            (Call.g_slice_alloc0 (n * env.sizeof_ptr))) with
        | fault g =>
          rw [hl] at h; injection h with h; subst h
          exact Or.inl (cl4_context_new_devices_fault _ _ _ _ _ _ hl)
        | returned v => rw [hl] at h; cases h
        | done slots v =>
          rw [hl] at h
          simp only [] at h
          split at h
          · injection h with h; exact Or.inl h.symm
          · split at h
            · injection h with h; exact Or.inr h.symm
            · split at h
              · cases h
              · split at h <;> cases h
      · cases h

/-- `cl4_context_destroy` faults only by reading past the end of the device
array. -/
theorem cl4_context_destroy_fault (env : Env) (w : World) (ctx : Option CL4Context) (f : Fault)
    (h : cl4_context_destroy env w ctx = Except.error f) : f = Fault.out_of_bounds := by
  unfold cl4_context_destroy at h
  cases ctx with
  | none => cases h
  | some c =>
    simp only [] at h
    cases hl : cl4_context_destroy_devices c.devices c.num_devices 0 w with
    | error g =>
      rw [hl] at h; injection h with h; subst h
      exact cl4_context_destroy_devices_fault _ _ _ _ _ hl
    | ok v => rw [hl] at h; cases h

/-- C16: under the entry precondition (`err` null or `*err` unset), for every
environment, world, device count and device list: wherever the body of
`cl4_context_new` reaches the success point, `err` is null or `*err` is still
unset; wherever it jumps to `error_handler`, `err` is null or `*err` is set;
and no call of `cl4_context_new` ends in a failed assertion. -/
theorem cl4_context_new_assertions_hold (env : Env) (w : World) (num_devices : cl_uint)
    (devices : Option (List cl_device_id)) (err : ErrPtr)
    (herr : err = none ∨ err = some none) :
    (∀ c e w1, cl4_context_new_flow env w num_devices devices err = Flow.finish c e w1 →
        e = none ∨ e = some none) ∧
      (∀ c e w1, cl4_context_new_flow env w num_devices devices err = Flow.error_handler c e w1 →
        e = none ∨ ∃ x, e = some (some x)) ∧
      cl4_context_new env w num_devices devices err ≠ Except.error Fault.assertion_failed := by
  have hfin : ∀ c e w1, cl4_context_new_flow env w num_devices devices err = Flow.finish c e w1 →
      e = none ∨ e = some none := by
    intro c e w1 h
    obtain ⟨devs, p, -, -, -, -, -, -, hcase⟩ :=
      cl4_context_new_flow_inv env w num_devices devices err _ h (Or.inr ⟨c, e, w1, rfl⟩)
    rcases hcase with ⟨e0, -, h1⟩ | ⟨-, -, h1⟩ | ⟨-, -, h1⟩
    · cases h1
    · cases h1
    · injection h1 with _ h2 _; rw [h2]; exact herr
  have hhandler : ∀ c e w1,
      cl4_context_new_flow env w num_devices devices err = Flow.error_handler c e w1 →
      e = none ∨ ∃ x, e = some (some x) := by
    intro c e w1 h
    obtain ⟨devs, p, -, -, -, -, -, -, hcase⟩ :=
      cl4_context_new_flow_inv env w num_devices devices err _ h (Or.inl ⟨c, e, w1, rfl⟩)
    rcases hcase with ⟨e0, -, h1⟩ | ⟨-, -, h1⟩ | ⟨-, -, h1⟩
    · injection h1 with _ h2 _; rw [h2]
      rcases herr with rfl | rfl
      · exact Or.inl rfl
      · exact Or.inr ⟨e0, rfl⟩
    · injection h1 with _ h2 _; rw [h2]
      rcases herr with rfl | rfl
      · exact Or.inl rfl
      · exact Or.inr ⟨_, rfl⟩
    · cases h1
  refine ⟨hfin, hhandler, ?_⟩
  rw [cl4_context_new_eq_complete]
  cases hfl : cl4_context_new_flow env w num_devices devices err with
  | fault f =>
    intro hh
    simp only [Flow.complete] at hh
    injection hh with hh; subst hh
    rcases cl4_context_new_flow_fault env w num_devices devices err _ hfl with h | h <;> cases h
  | returned e v => simp [Flow.complete]
  | error_handler c e w1 =>
    intro hh
    simp only [Flow.complete, cl4_context_new_error_handler] at hh
    have hne : e ≠ some none := by
      rcases hhandler c e w1 hfl with h | ⟨x, h⟩ <;> rw [h] <;> simp
    rw [if_neg hne] at hh
    cases hd : cl4_context_destroy env w1 (some c) with
    | error g =>
      rw [hd] at hh
      have := cl4_context_destroy_fault env w1 (some c) g hd
      subst this; cases hh
    | ok v => rw [hd] at hh; cases hh
  | finish c e w1 =>
    rcases hfin c e w1 hfl with h | h <;> rw [h] <;> simp [Flow.complete]

/-- C16 (witness): an unset error slot; with native creation failing the body
jumps to `error_handler` with the slot set, with native creation succeeding it
reaches the success point with the slot unset. -/
theorem cl4_context_new_assertions_hold_witness :
    ((some none : ErrPtr) = none ∨ (some none : ErrPtr) = some none) ∧
      cl4_context_new (failingCreateEnv (-5)) emptyWorld 2 (some [7, 8]) (some none)
        ≠ Except.error Fault.assertion_failed ∧
      (∃ c x w1, cl4_context_new_flow (failingCreateEnv (-5)) emptyWorld 2 (some [7, 8])
        (some none) = Flow.error_handler c (some (some x)) w1) ∧
      (∃ c w1, cl4_context_new_flow sampleEnv emptyWorld 2 (some [7, 8])
        (some none) = Flow.finish c (some none) w1) :=
  ⟨Or.inr rfl,
    (cl4_context_new_assertions_hold (failingCreateEnv (-5)) emptyWorld 2 (some [7, 8])
      (some none) (Or.inr rfl)).2.2,
    ⟨_, _, _, rfl⟩, ⟨_, _, rfl⟩⟩

theorem wrappersOf_ne_none (ds : List cl_device_id) : ∀ s ∈ wrappersOf ds, s ≠ none := by
  intro s hs
  simp only [wrappersOf, List.mem_map] at hs
  obtain ⟨d, -, rfl⟩ := hs
  simp

theorem map_unref_wrappersOf (ds : List cl_device_id) :
    (wrappersOf ds).map Call.cl4_device_unref
      = ds.map (fun d => Call.cl4_device_unref (some ⟨d⟩)) := by
  simp [wrappersOf]

/-- C17: whenever the body of `cl4_context_new` jumps to `error_handler`, the
context `c` it passes to `cl4_context_destroy` has `num_devices` equal to the
count `n` the device array was allocated with, a device array of `n` slots each
holding the wrapper `cl4_device_new` returned for the non-NULL handle of its
index (no slot is `NULL`), and platform and native context fields that are
either both still `NULL` or set to the platform wrapper and to what
`clCreateContext` returned. `cl4_context_destroy` then returns after one
`cl4_device_unref` per slot, each on a wrapper, the release of the array with
the size it was allocated with, and `clReleaseContext` and
`cl4_platform_unref` only for fields that are set. -/
theorem cl4_context_new_error_handler_context (env : Env) (w : World) (n : cl_uint)
    (devices : Option (List cl_device_id)) (err : ErrPtr) (c : CL4Context) (e : ErrPtr)
    (w1 : World)
    (h : cl4_context_new_flow env w n devices err = Flow.error_handler c e w1) :
    ∃ devs, devices = some devs ∧ n ≤ devs.length ∧
      c.num_devices = n ∧ c.devices.length = n ∧
      c.devices = wrappersOf (devs.take n) ∧ (∀ d ∈ devs.take n, d ≠ 0) ∧
      (∀ s ∈ c.devices, s ≠ none) ∧
      (∃ t, w1.trace = w.trace
        ++ [Call.g_slice_new0_CL4Context, Call.g_slice_alloc0 (c.num_devices * env.sizeof_ptr)]
        ++ (devs.take n).map Call.cl4_device_new ++ t) ∧
      ((c.platform = none ∧ c.context = 0) ∨
        (∃ p, c.platform = some ⟨p⟩ ∧ c.context = (env.clCreateContext (ctxProps p) n devs).1 ∧
          Call.cl4_platform_new p ∈ w1.trace)) ∧
      ∃ w2, cl4_context_destroy env w1 (some c) = Except.ok w2 ∧
        w2.trace = w1.trace
          ++ (devs.take n).map (fun d => Call.cl4_device_unref (some ⟨d⟩))
          ++ [Call.g_slice_free1 (n * env.sizeof_ptr)]
          ++ (if c.context ≠ 0 then [Call.clReleaseContext c.context] else [])
          ++ (match c.platform with
              | some p => [Call.cl4_platform_unref (some p)]
              | none => [])
          ++ [Call.g_slice_free_CL4Context] := by
  obtain ⟨devs, p, hdev, hn, herr, hle, hall, hval, hcase⟩ :=
    cl4_context_new_flow_inv env w n devices err _ h (Or.inl ⟨c, e, w1, rfl⟩)
  have hlen : (wrappersOf (devs.take n)).length = n := by simp [wrappersOf, hle]
  rcases hcase with ⟨e0, -, h1⟩ | ⟨-, -, h1⟩ | ⟨-, -, h1⟩
  · injection h1 with hc he hw
    subst hc hw
    refine ⟨devs, hdev, hle, rfl, hlen, rfl, hall, wrappersOf_ne_none _, ?_, Or.inl ⟨rfl, rfl⟩, ?_⟩
    · exact ⟨[Call.cl4_device_info_value ((devs.take n).head?.map CL4Device.mk)
        CL_DEVICE_PLATFORM], by simp [World.emit, wrapDevices_trace]⟩
    · refine ⟨_, cl4_context_destroy_some env _ _ hlen, ?_⟩
      simp [destroyedWorld, destroyCalls, map_unref_wrappersOf]
  · injection h1 with hc he hw
    subst hc hw
    refine ⟨devs, hdev, hle, rfl, hlen, rfl, hall, wrappersOf_ne_none _, ?_,
      Or.inr ⟨p, rfl, rfl, ?_⟩, ?_⟩
    · exact ⟨[Call.cl4_device_info_value ((devs.take n).head?.map CL4Device.mk)
        CL_DEVICE_PLATFORM, Call.cl4_platform_new p, Call.clCreateContext (ctxProps p) n devs],
        by simp [World.emit, wrapDevices_trace, cl4_platform_new]⟩
    · simp [World.emit, cl4_platform_new]
    · refine ⟨_, cl4_context_destroy_some env _ _ hlen, ?_⟩
      simp [destroyedWorld, destroyCalls, map_unref_wrappersOf]
  · cases h1

/-- C17 (witness): two devices, native creation failing with status `-5`. -/
theorem cl4_context_new_error_handler_context_witness :
    cl4_context_new_flow (failingCreateEnv (-5)) emptyWorld 2 (some [7, 8]) (some none)
        = Flow.error_handler ⟨some ⟨5⟩, 0, 2, [some ⟨7⟩, some ⟨8⟩]⟩
            (g_set_error (some none) 1 10 (cl4_context_new_message (failingCreateEnv (-5)) (-5)))
            ⟨[(7, 1), (8, 1)], [(5, 1)],
              [Call.g_slice_new0_CL4Context, Call.g_slice_alloc0 16, Call.cl4_device_new 7,
                Call.cl4_device_new 8,
                Call.cl4_device_info_value (some ⟨7⟩) CL_DEVICE_PLATFORM,
                Call.cl4_platform_new 5, Call.clCreateContext (ctxProps 5) 2 [7, 8]]⟩ ∧
      ∃ devs, some [7, 8] = some devs ∧ 2 ≤ devs.length ∧
        (∃ w2, cl4_context_destroy (failingCreateEnv (-5))
            ⟨[(7, 1), (8, 1)], [(5, 1)],
              [Call.g_slice_new0_CL4Context, Call.g_slice_alloc0 16, Call.cl4_device_new 7,
                Call.cl4_device_new 8,
                Call.cl4_device_info_value (some ⟨7⟩) CL_DEVICE_PLATFORM,
                Call.cl4_platform_new 5, Call.clCreateContext (ctxProps 5) 2 [7, 8]]⟩
            (some ⟨some ⟨5⟩, 0, 2, [some ⟨7⟩, some ⟨8⟩]⟩) = Except.ok w2) :=
  ⟨rfl,
    (cl4_context_new_error_handler_context (failingCreateEnv (-5)) emptyWorld 2 (some [7, 8])
      (some none) ⟨some ⟨5⟩, 0, 2, [some ⟨7⟩, some ⟨8⟩]⟩
      (g_set_error (some none) 1 10 (cl4_context_new_message (failingCreateEnv (-5)) (-5)))
      ⟨[(7, 1), (8, 1)], [(5, 1)],
        [Call.g_slice_new0_CL4Context, Call.g_slice_alloc0 16, Call.cl4_device_new 7,
          Call.cl4_device_new 8,
          Call.cl4_device_info_value (some ⟨7⟩) CL_DEVICE_PLATFORM,
          Call.cl4_platform_new 5, Call.clCreateContext (ctxProps 5) 2 [7, 8]]⟩ rfl).imp
      (fun _ hd => ⟨hd.1, hd.2.1, hd.2.2.2.2.2.2.2.2.2.imp (fun _ hw => hw.1)⟩)⟩

/-! ## Wrapper objects: lemmas and claims -/

theorem registryFind_registryLookupOrCreate (r : Registry) (h : Nat) :
    registryFind (registryLookupOrCreate r h) h = some (h, refCount r h + 1) := by
  induction r with
  | nil => simp [registryLookupOrCreate, registryFind, refCount]
  | cons e rest ih =>
    obtain ⟨k, n⟩ := e
    by_cases hk : k = h
    · subst hk; simp [registryLookupOrCreate, registryFind, refCount]
    · simp [registryLookupOrCreate, registryFind, refCount, hk, ih]

theorem refCount_eq_of_registryFind (r : Registry) (h c : Nat)
    (hf : registryFind r h = some (h, c)) : refCount r h = c := by
  induction r with
  | nil => simp [registryFind] at hf
  | cons e rest ih =>
    obtain ⟨k, n⟩ := e
    by_cases hk : k = h
    · subst hk; simp only [registryFind, if_true, Option.some.injEq, Prod.mk.injEq] at hf
      simp [refCount, hf.2]
    · simp only [registryFind, hk, if_false] at hf
      simp [refCount, hk, ih hf]

theorem registryFind_wrapperRef (r : Registry) (h c : Nat)
    (hf : registryFind r h = some (h, c)) :
    registryFind (wrapperRef r h) h = some (h, c + 1) := by
  induction r with
  | nil => simp [registryFind] at hf
  | cons e rest ih =>
    obtain ⟨k, n⟩ := e
    by_cases hk : k = h
    · subst hk; simp only [registryFind, if_true, Option.some.injEq, Prod.mk.injEq] at hf
      simp [wrapperRef, registryFind, hf.2]
    · simp only [registryFind, hk, if_false] at hf
      simp [wrapperRef, registryFind, hk, ih hf]

theorem registryFind_wrapperUnref (r : Registry) (h c : Nat)
    (hf : registryFind r h = some (h, c)) (hc : 1 < c) :
    registryFind (wrapperUnref r h) h = some (h, c - 1) := by
  induction r with
  | nil => simp [registryFind] at hf
  | cons e rest ih =>
    obtain ⟨k, n⟩ := e
    by_cases hk : k = h
    · subst hk; simp only [registryFind, if_true, Option.some.injEq, Prod.mk.injEq] at hf
      obtain ⟨-, hnc⟩ := hf
      subst hnc
      have hn : ¬ n - 1 = 0 := by omega
      simp [wrapperUnref, registryFind, hn]
    · simp only [registryFind, hk, if_false] at hf
      simp [wrapperUnref, registryFind, hk, ih hf]

theorem registryFind_refTimes (r : Registry) (h c : Nat)
    (hf : registryFind r h = some (h, c)) (k : Nat) :
    registryFind (refTimes r h k) h = some (h, c + k) := by
  induction k with
  | zero => simpa [refTimes] using hf
  | succ k ih => simpa [refTimes, Nat.add_assoc] using registryFind_wrapperRef _ h _ ih

theorem registryFind_unrefTimes (r : Registry) (h c : Nat)
    (hf : registryFind r h = some (h, c)) (k : Nat) (hk : k < c) :
    registryFind (unrefTimes r h k) h = some (h, c - k) := by
  induction k with
  | zero => simpa [unrefTimes] using hf
  | succ k ih =>
    have := registryFind_wrapperUnref _ h _ (ih (by omega)) (by omega)
    simpa [unrefTimes, Nat.sub_sub] using this

/-- C11: for every handle `h` with no wrapper in the registry, the freshly
constructed wrapper of `h` has reference count 1; after `N` additional `ref`
calls its reference count is `N + 1`; during the `N` subsequent `unref` calls,
after `k` of them the wrapper is still in the registry with reference count
`N + 1 - k`, and after all `N` of them its reference count is 1 again. -/
theorem wrapper_ref_unref_count (r : Registry) (h N : Nat)
    (hfresh : registryFind r h = none) :
    (newWrap r h).1 = some (h, 1) ∧
      refCount (newWrap r h).2 h = 1 ∧
      (∀ k, k ≤ N → registryFind (refTimes (newWrap r h).2 h k) h = some (h, k + 1)) ∧
      refCount (refTimes (newWrap r h).2 h N) h = N + 1 ∧
      (∀ k, k ≤ N →
        registryFind (unrefTimes (refTimes (newWrap r h).2 h N) h k) h = some (h, N + 1 - k)) ∧
      refCount (unrefTimes (refTimes (newWrap r h).2 h N) h N) h = 1 := by
  have hzero : refCount r h = 0 := by
    induction r with
    | nil => rfl
    | cons e rest ih =>
      obtain ⟨k, n⟩ := e
      by_cases hk : k = h
      · simp [registryFind, hk] at hfresh
      · simp only [registryFind, hk, if_false] at hfresh
        simp [refCount, hk, ih hfresh]
  have hnew : registryFind (newWrap r h).2 h = some (h, 1) := by
    simp [newWrap, registryFind_registryLookupOrCreate, hzero]
  have href : ∀ k, registryFind (refTimes (newWrap r h).2 h k) h = some (h, k + 1) := by
    intro k
    have := registryFind_refTimes _ h 1 hnew k
    rwa [Nat.add_comm] at this
  have hunref : ∀ k, k ≤ N →
      registryFind (unrefTimes (refTimes (newWrap r h).2 h N) h k) h = some (h, N + 1 - k) :=
    fun k hk => registryFind_unrefTimes _ h (N + 1) (href N) k (by omega)
  refine ⟨hnew, refCount_eq_of_registryFind _ _ _ hnew, fun k _ => href k,
    refCount_eq_of_registryFind _ _ _ (href N), hunref, ?_⟩
  have := refCount_eq_of_registryFind _ _ _ (hunref N (Nat.le_refl _))
  simpa using this

/-- C11 (witness): an empty registry, handle `7`, `N = 2` as in
`ref_unref_test`. -/
theorem wrapper_ref_unref_count_witness :
    registryFind [] 7 = none ∧
      ((newWrap [] 7).1 = some (7, 1) ∧
        refCount (newWrap [] 7).2 7 = 1 ∧
        (∀ k, k ≤ 2 → registryFind (refTimes (newWrap [] 7).2 7 k) 7 = some (7, k + 1)) ∧
        refCount (refTimes (newWrap [] 7).2 7 2) 7 = 2 + 1 ∧
        (∀ k, k ≤ 2 →
          registryFind (unrefTimes (refTimes (newWrap [] 7).2 7 2) 7 k) 7 = some (7, 2 + 1 - k)) ∧
        refCount (unrefTimes (refTimes (newWrap [] 7).2 7 2) 7 2) 7 = 1) :=
  ⟨rfl, wrapper_ref_unref_count [] 7 2 rfl⟩

/-- C12: for every registry and every native handle `h`, adoption of `h`
returns a wrapper object (it does not fail) and unwrapping that object yields
exactly `h`; the same holds for the device and platform wrappers of
`cl4_device_new` and `cl4_platform_new`. -/
theorem newWrap_unwrap (r : Registry) (w : World) (h : Nat) :
    (∃ obj, (newWrap r h).1 = some obj ∧ unwrap obj = h) ∧
      (cl4_device_new w h).1.id = h ∧ (cl4_platform_new w h).1.id = h := by
  refine ⟨⟨(h, refCount r h + 1), ?_, rfl⟩, rfl, rfl⟩
  simp [newWrap, registryFind_registryLookupOrCreate]

/-! ## Image memory objects: lemmas and claims -/

theorem bits32_cast (v : Int) : ((bits32 v : Nat) : Int) = v % 2 ^ 32 :=
  Int.toNat_of_nonneg (Int.emod_nonneg _ (by norm_num))

/-- The four little-endian bytes of a `gint32` make that `gint32` again. -/
theorem gint32_of_pixel_of_gint32 (v : Int) (h : -2 ^ 31 ≤ v ∧ v < 2 ^ 31) :
    gint32_of_pixel (pixel_of_gint32 v) = v := by
  unfold gint32_of_pixel pixel_of_gint32 gint32_of_bits
  simp only []
  have hu2 := bits32_cast v
  generalize bits32 v = u at hu2 ⊢
  have hsum : u % 2 ^ 32 % 256 + 2 ^ 8 * (u % 2 ^ 32 / 2 ^ 8 % 256)
      + 2 ^ 16 * (u % 2 ^ 32 / 2 ^ 16 % 256) + 2 ^ 24 * (u % 2 ^ 32 / 2 ^ 24 % 256)
      = u % 2 ^ 32 := by omega
  have hlt : u < 2 ^ 32 := by omega
  have hmod : u % 2 ^ 32 = u := Nat.mod_eq_of_lt hlt
  rw [hmod] at hsum
  rw [hsum]
  split <;> omega

/-- C operator `&` with the mask `0xFF` keeps the low byte. -/
theorem int_and_255 (a : Int) : int_and a 0xFF = a % 256 := by
  unfold int_and
  have h255 : bits32 0xFF = 2 ^ 8 - 1 := by decide
  rw [h255, Nat.and_pow_two_sub_one_eq_mod]
  unfold gint32_of_bits
  have hu2 := bits32_cast a
  generalize bits32 a = u at hu2 ⊢
  split <;> omega

theorem bits32_of_byte (a : Int) : ((bits32 (a % 256) : Nat) : Int) = a % 256 := by
  rw [bits32_cast]; omega

/-- Index arithmetic of a region read row after row. -/
theorem inRegion_of_lt (origin region : Size3) (i : Nat) (hi : i < region.x * region.y) :
    inRegion origin region (origin.x + i % region.x) (origin.y + i / region.x) = true ∧
      (origin.y + i / region.x - origin.y) * region.x + (origin.x + i % region.x - origin.x) = i := by
  have hx : 0 < region.x := by
    rcases Nat.eq_zero_or_pos region.x with h | h
    · rw [h] at hi; simp at hi
    · exact h
  have hmod : i % region.x < region.x := Nat.mod_lt _ hx
  have hdiv : i / region.x < region.y := by
    rw [Nat.div_lt_iff_lt_mul hx]; rwa [Nat.mul_comm] at hi
  refine ⟨by simp [inRegion, hmod, hdiv], ?_⟩
  rw [Nat.add_sub_cancel_left, Nat.add_sub_cancel_left, Nat.mul_comm]
  exact Nat.div_add_mod i region.x

/-- C13: for every image, every valid region and every host array of `gint32`
that covers the region, the write of the array to the region succeeds and the
read of the same region from the written image returns an array equal to the
one written; likewise an image created with `CL_MEM_COPY_HOST_PTR` from a host
array covering it reads back as that array. -/
theorem image_write_read (img : ImageMem) (origin region : Size3) (data : List Int)
    (hvalid : regionValid img origin region = true)
    (hlen : data.length = region.x * region.y)
    (hrange : ∀ v ∈ data, -2 ^ 31 ≤ v ∧ v < 2 ^ 31) :
    (∃ img1, imageWrite img origin region data = some img1 ∧
        imageRead img1 origin region = some data) ∧
      (origin = ⟨0, 0, 0⟩ → region = ⟨img.width, img.height, 1⟩ →
        ∃ img2, imageNewCopyHostPtr img.width img.height data = some img2 ∧
          imageRead img2 origin region = some data) := by
  have main : ∀ (im : ImageMem), regionValid im origin region = true →
      ∃ img1, imageWrite im origin region data = some img1 ∧
        imageRead img1 origin region = some data := by
    intro im hv
    have hv1 : regionValid { im with
        pixel := fun x y =>
          if inRegion origin region x y then
            pixel_of_gint32 (data.getD ((y - origin.y) * region.x + (x - origin.x)) 0)
          else im.pixel x y } origin region = true := hv
    refine ⟨{ im with
        pixel := fun x y =>
          if inRegion origin region x y then
            pixel_of_gint32 (data.getD ((y - origin.y) * region.x + (x - origin.x)) 0)
          else im.pixel x y }, ?_, ?_⟩
    · unfold imageWrite
      rw [if_pos (by simp [hv, hlen])]
    simp only [imageRead, hv1, if_true, Option.some.injEq]
    apply List.ext_getElem
    · simp [hlen]
    · intro i h1 h2
      have hi : i < region.x * region.y := by simpa using h1
      obtain ⟨hin, hidx⟩ := inRegion_of_lt origin region i hi
      simp only [List.getElem_map, List.getElem_range, hin, if_true, hidx]
      rw [List.getD_eq_getElem _ _ h2]
      exact gint32_of_pixel_of_gint32 _ (hrange _ (List.getElem_mem _))
  refine ⟨main img hvalid, ?_⟩
  intro ho hr
  have hv0 : regionValid ⟨img.width, img.height, fun _ _ => ⟨0, 0, 0, 0⟩⟩ origin region = true :=
    hvalid
  obtain ⟨img2, h1, h2⟩ := main _ hv0
  refine ⟨img2, ?_, h2⟩
  rw [ho, hr] at h1
  exact h1

/-- C13 (witness): a 2 by 2 region at origin (1, 0) of a 4 by 2 image, with
negative and positive elements. -/
theorem image_write_read_witness :
    (regionValid sampleImage ⟨1, 0, 0⟩ ⟨2, 2, 1⟩ = true ∧
      ([-1, 305419896, -2147483648, 2147483647] : List Int).length = 2 * 2 ∧
      (∀ v ∈ ([-1, 305419896, -2147483648, 2147483647] : List Int),
        -2 ^ 31 ≤ v ∧ v < 2 ^ 31)) ∧
      ∃ img1, imageWrite sampleImage ⟨1, 0, 0⟩ ⟨2, 2, 1⟩
          [-1, 305419896, -2147483648, 2147483647] = some img1 ∧
        imageRead img1 ⟨1, 0, 0⟩ ⟨2, 2, 1⟩ = some [-1, 305419896, -2147483648, 2147483647] :=
  ⟨⟨by decide, rfl, by decide⟩,
    (image_write_read sampleImage ⟨1, 0, 0⟩ ⟨2, 2, 1⟩ [-1, 305419896, -2147483648, 2147483647]
      (by decide) rfl (by decide)).1⟩

/-- C15: for every 32-bit value `rc`, each channel of the fill colour of
`fill_test` is in 0..255, the four channels packed as consecutive bytes in
channel order (little-endian) are the bit pattern of `rc`, and for every image
and every valid region the fill of the region with that colour succeeds and
every 32-bit pixel read back from the region equals `rc`. -/
theorem fill_test_color_read (rc : Int) (hrc : -2 ^ 31 ≤ rc ∧ rc < 2 ^ 31) :
    ((fill_test_color rc).s0 ≤ 255 ∧ (fill_test_color rc).s1 ≤ 255 ∧
        (fill_test_color rc).s2 ≤ 255 ∧ (fill_test_color rc).s3 ≤ 255) ∧
      (fill_test_color rc).s0 + 2 ^ 8 * (fill_test_color rc).s1
          + 2 ^ 16 * (fill_test_color rc).s2 + 2 ^ 24 * (fill_test_color rc).s3 = bits32 rc ∧
      gint32_of_pixel (pixel_of_color (fill_test_color rc)) = rc ∧
      ∀ (img : ImageMem) (origin region : Size3), regionValid img origin region = true →
        ∃ img1, imageFill img (fill_test_color rc) origin region = some img1 ∧
          imageRead img1 origin region = some (List.replicate (region.x * region.y) rc) := by
  have h0 := bits32_of_byte rc
  have h1 := bits32_of_byte (rc / 2 ^ 8)
  have h2 := bits32_of_byte (rc / 2 ^ 16)
  have h3 := bits32_of_byte (rc / 2 ^ 24)
  have hb := bits32_cast rc
  have e0 : (fill_test_color rc).s0 = bits32 (rc % 256) := by
    simp only [fill_test_color, int_and_255]
  have e1 : (fill_test_color rc).s1 = bits32 (rc / 2 ^ 8 % 256) := by
    simp only [fill_test_color, int_and_255, int_shr, Int.shiftRight_eq_div_pow,
      Nat.cast_pow, Nat.cast_ofNat]
  have e2 : (fill_test_color rc).s2 = bits32 (rc / 2 ^ 16 % 256) := by
    simp only [fill_test_color, int_and_255, int_shr, Int.shiftRight_eq_div_pow,
      Nat.cast_pow, Nat.cast_ofNat]
  have e3 : (fill_test_color rc).s3 = bits32 (rc / 2 ^ 24 % 256) := by
    simp only [fill_test_color, int_and_255, int_shr, Int.shiftRight_eq_div_pow,
      Nat.cast_pow, Nat.cast_ofNat]
  have f0 : ((fill_test_color rc).s0 : Int) = rc % 256 := by rw [e0]; exact h0
  have f1 : ((fill_test_color rc).s1 : Int) = rc / 2 ^ 8 % 256 := by rw [e1]; exact h1
  have f2 : ((fill_test_color rc).s2 : Int) = rc / 2 ^ 16 % 256 := by rw [e2]; exact h2
  have f3 : ((fill_test_color rc).s3 : Int) = rc / 2 ^ 24 % 256 := by rw [e3]; exact h3
  have hbound : (fill_test_color rc).s0 ≤ 255 ∧ (fill_test_color rc).s1 ≤ 255 ∧
      (fill_test_color rc).s2 ≤ 255 ∧ (fill_test_color rc).s3 ≤ 255 := by
    refine ⟨?_, ?_, ?_, ?_⟩ <;> omega
  have hpack : (fill_test_color rc).s0 + 2 ^ 8 * (fill_test_color rc).s1
      + 2 ^ 16 * (fill_test_color rc).s2 + 2 ^ 24 * (fill_test_color rc).s3 = bits32 rc := by
    omega
  have hpix : gint32_of_pixel (pixel_of_color (fill_test_color rc)) = rc := by
    unfold gint32_of_pixel pixel_of_color
    simp only [Nat.min_eq_left hbound.1, Nat.min_eq_left hbound.2.1,
      Nat.min_eq_left hbound.2.2.1, Nat.min_eq_left hbound.2.2.2, hpack]
    unfold gint32_of_bits
    split <;> omega
  refine ⟨hbound, hpack, hpix, ?_⟩
  intro img origin region hv
  have hv1 : regionValid { img with
      pixel := fun x y =>
        if inRegion origin region x y then pixel_of_color (fill_test_color rc)
        else img.pixel x y } origin region = true := hv
  refine ⟨{ img with
      pixel := fun x y =>
        if inRegion origin region x y then pixel_of_color (fill_test_color rc)
        else img.pixel x y }, ?_, ?_⟩
  · unfold imageFill
    rw [if_pos hv]
  simp only [imageRead, hv1, if_true, Option.some.injEq]
  apply List.ext_getElem
  · simp
  · intro i h1 h2
    have hi : i < region.x * region.y := by simpa using h1
    obtain ⟨hin, -⟩ := inRegion_of_lt origin region i hi
    simp only [List.getElem_map, List.getElem_range, hin, if_true, List.getElem_replicate]
    exact hpix

/-- C15 (witness): the value `rc = -19088744` (bit pattern `0xFEDCBA98`) on a
2 by 2 region of a 4 by 2 image. -/
theorem fill_test_color_read_witness :
    (-2 ^ 31 ≤ (-19088744 : Int) ∧ (-19088744 : Int) < 2 ^ 31) ∧
      fill_test_color (-19088744) = ⟨0x98, 0xBA, 0xDC, 0xFE⟩ ∧
      gint32_of_pixel (pixel_of_color (fill_test_color (-19088744))) = -19088744 ∧
      ∃ img1, imageFill sampleImage (fill_test_color (-19088744)) ⟨1, 0, 0⟩ ⟨2, 2, 1⟩
          = some img1 ∧
        imageRead img1 ⟨1, 0, 0⟩ ⟨2, 2, 1⟩ = some (List.replicate (2 * 2) (-19088744)) :=
  ⟨by decide, by decide,
    (fill_test_color_read (-19088744) (by decide)).2.2.1,
    (fill_test_color_read (-19088744) (by decide)).2.2.2 sampleImage ⟨1, 0, 0⟩ ⟨2, 2, 1⟩
      (by decide)⟩

/-! ## The error macros: lemmas and claims -/

/-- When the error location is null (the caller passed no error output)
`ccl_if_err_create_goto` creates nothing and the jump depends on the condition
alone. -/
theorem ccl_if_err_create_goto_no_slot (quark : GQuark) (error_condition : Bool)
    (error_code : Int) (msg : String) :
    ccl_if_err_create_goto none quark error_condition error_code msg
      = (none, error_condition) := by
  cases error_condition <;> rfl

/-- A slot that already holds an error is left as it is by
`ccl_if_err_create_goto`. -/
theorem ccl_if_err_create_goto_slot_set (old : GError) (quark : GQuark) (error_condition : Bool)
    (error_code : Int) (msg : String) :
    ccl_if_err_create_goto (some (some old)) quark error_condition error_code msg
      = (some (some old), error_condition) := by
  cases error_condition <;> rfl

/-- C14: `ccl_if_err_create_goto` jumps to the label if and only if its error
condition is true. When the condition holds, an unset error slot is set to an
error with the given domain quark, error code and message and the jump is
taken; when it does not hold, the error location is left unchanged and
execution falls through. -/
theorem ccl_if_err_create_goto_iff (err : ErrPtr) (quark : GQuark) (error_condition : Bool)
    (error_code : Int) (msg : String) :
    ((ccl_if_err_create_goto err quark error_condition error_code msg).2 = true
        ↔ error_condition = true) ∧
      ccl_if_err_create_goto (some none) quark true error_code msg
        = (some (some ⟨quark, error_code, msg⟩), true) ∧
      ccl_if_err_create_goto err quark false error_code msg = (err, false) := by
  refine ⟨?_, rfl, rfl⟩
  cases error_condition <;> simp [ccl_if_err_create_goto]

end Cf4ocl
